import Mathlib

/-!
Shallow embedding of `phoenixdb/cursor.py` (class `Cursor`): the
statement/frame lifecycle and pagination engine of pyPhoenix.

Modelling conventions:
* Python values flowing through rows are `PyVal`; the coercion targets
  `decimal.Decimal` and `float` are marked by wrapping constructors.
* The RPC collaborator (`self._connection._client`) is modelled as
  deterministic response scripts carried in the state, one list per RPC
  method, consumed in call order; every issued request is appended to a
  chronological `trace`.  A call on an exhausted script yields the
  modelling-artifact error `Err.noResponse`.
* A Python method that can raise is a function `Sys → Except Err α × Sys`:
  the returned state carries every mutation performed before the raise,
  exactly as Python leaves the object when an exception propagates.
* `cursor.py` line 18 imports only `OperationalError, NotSupportedError,
  ProgrammingError` from `phoenixdb.errors`; the name `InternalError`
  used at line 145 is unbound there, so executing that `raise` statement
  raises Python's `NameError`.  The embedding is faithful to this:
  `Err.nameError "InternalError"`.  The constructor `Err.internalError`
  exists only to state what the source names but never binds.
-/

/-- A Python value stored in a result row.  `prim` is the raw wire value
(as decoded by the collaborator); `decimalV`/`floatV` mark the result of
applying `Decimal`/`float` to a raw value. -/
inductive PyVal where
  | pynone
  | prim (s : String)
  | decimalV (s : String)
  | floatV (s : String)
  deriving Repr, DecidableEq

/-- The two coercion targets `_set_signature` can put into
`self._data_types`: `decimal.Decimal` and `float`. -/
inductive DType where
  | decimalT
  | floatT
  deriving Repr, DecidableEq

/-- Calling the coercion target on a (non-None) value: `Decimal(value)` /
`float(value)`.  The `pynone` case is unreachable in the code path
(`fetchone` skips `None` before applying) and is mapped to itself. -/
def applyDT : DType → PyVal → PyVal
  | DType.decimalT, PyVal.prim s => PyVal.decimalV s
  | DType.decimalT, PyVal.decimalV s => PyVal.decimalV s
  | DType.decimalT, PyVal.floatV s => PyVal.decimalV s
  | DType.decimalT, PyVal.pynone => PyVal.pynone
  | DType.floatT, PyVal.prim s => PyVal.floatV s
  | DType.floatT, PyVal.decimalV s => PyVal.floatV s
  | DType.floatT, PyVal.floatV s => PyVal.floatV s
  | DType.floatT, PyVal.pynone => PyVal.pynone

/-- One row: an ordered sequence of column values. -/
abbrev Row := List PyVal

/-- A column descriptor of a signature; only the field `_set_signature`
inspects (`columnClassName`) plus the column name are modelled. -/
structure Column where
  columnName : String
  columnClassName : String
  deriving Repr, DecidableEq

/-- A statement signature: the ordered column descriptors. -/
structure Signature where
  columns : List Column
  deriving Repr, DecidableEq

/-- One page of results: `frame['rows']`, `frame['offset']`,
`frame['done']`. -/
structure Frame where
  offset : Int
  done : Bool
  rows : List Row
  deriving Repr, DecidableEq

/-- One element of the `prepareAndExecute` response list. -/
structure ExecResult where
  ownStatement : Bool
  statementId : Nat
  signature : Option Signature
  firstFrame : Option Frame
  updateCount : Int
  deriving Repr, DecidableEq

/-- The `prepare` response: `statement['id']`, `statement['signature']`. -/
structure PrepareResult where
  id : Nat
  signature : Option Signature
  deriving Repr, DecidableEq

/-- A request issued to the RPC collaborator, with the arguments the
cursor passes. -/
inductive Req where
  | closeStatementR (connId : Nat) (statementId : Nat)
  | prepareAndExecuteR (connId : Nat) (statementId : Option Nat)
      (operation : String) (maxRowCount : Int)
  | prepareR (connId : Nat) (statementId : Option Nat)
      (operation : String) (maxRowCount : Int)
  | fetchR (connId : Nat) (statementId : Option Nat)
      (parameters : Option Row) (offset : Option Int)
      (fetchMaxRowCount : Int)
  deriving Repr, DecidableEq

/-- Errors.  `programmingError` is `phoenixdb.errors.ProgrammingError`
(the StateError kind); `nameError` is Python's `NameError` raised when an
unbound name is evaluated; `indexError` is Python's `IndexError`;
`clientError` stands for any error raised inside a collaborator call;
`internalError` is the ProtocolViolation-kind class the source names at
line 145 but never imports; `noResponse` is the modelling artifact for an
exhausted response script. -/
inductive Err where
  | programmingError (msg : String)
  | nameError (name : String)
  | indexError
  | clientError (msg : String)
  | internalError (msg : String)
  | noResponse
  deriving Repr, DecidableEq

instance {ε α : Type} [DecidableEq ε] [DecidableEq α] :
    DecidableEq (Except ε α) := fun x y =>
  match x, y with
  | Except.error a, Except.error b =>
    if h : a = b then isTrue (congrArg Except.error h)
    else isFalse (fun hc => h (Except.error.inj hc))
  | Except.error _, Except.ok _ => isFalse (fun hc => Except.noConfusion hc)
  | Except.ok _, Except.error _ => isFalse (fun hc => Except.noConfusion hc)
  | Except.ok a, Except.ok b =>
    if h : a = b then isTrue (congrArg Except.ok h)
    else isFalse (fun hc => h (Except.ok.inj hc))

/-- The full state: the cursor's fields, the connection fields it reads,
the collaborator's response scripts, and the chronological request
trace. -/
structure Sys where
  connId : Nat
  connClosed : Bool
  id : Option Nat
  signature : Option Signature
  data_types : List (Nat × DType)
  frame : Option Frame
  pos : Option Nat
  closed : Bool
  arraysize : Int
  itersize : Int
  updatecount : Int
  closeResp : List (Except Err Unit)
  prepExecResp : List (Except Err (List ExecResult))
  prepResp : List (Except Err PrepareResult)
  fetchResp : List (Except Err Frame)
  trace : List Req
  deriving Repr, DecidableEq

/-- Collaborator call `closeStatement(connId, statementId)`. -/
def clientCloseStatement (s : Sys) (connId statementId : Nat) :
    Except Err Unit × Sys :=
  let s1 := { s with trace := s.trace ++ [Req.closeStatementR connId statementId] }
  match s1.closeResp with
  | [] => (Except.error Err.noResponse, s1)
  | r :: rest => (r, { s1 with closeResp := rest })

/-- Collaborator call `prepareAndExecute(connId, statementId, operation,
maxRowCount)`. -/
def clientPrepareAndExecute (s : Sys) (connId : Nat) (statementId : Option Nat)
    (operation : String) (maxRowCount : Int) :
    Except Err (List ExecResult) × Sys :=
  let s1 := { s with trace :=
    s.trace ++ [Req.prepareAndExecuteR connId statementId operation maxRowCount] }
  match s1.prepExecResp with
  | [] => (Except.error Err.noResponse, s1)
  | r :: rest => (r, { s1 with prepExecResp := rest })

/-- Collaborator call `prepare(connId, statementId, operation,
maxRowCount)`. -/
def clientPrepare (s : Sys) (connId : Nat) (statementId : Option Nat)
    (operation : String) (maxRowCount : Int) :
    Except Err PrepareResult × Sys :=
  let s1 := { s with trace :=
    s.trace ++ [Req.prepareR connId statementId operation maxRowCount] }
  match s1.prepResp with
  | [] => (Except.error Err.noResponse, s1)
  | r :: rest => (r, { s1 with prepResp := rest })

/-- Collaborator call `fetch(connId, statementId, parameters?, offset?,
fetchMaxRowCount)`. -/
def clientFetch (s : Sys) (connId : Nat) (statementId : Option Nat)
    (parameters : Option Row) (offset : Option Int) (fetchMaxRowCount : Int) :
    Except Err Frame × Sys :=
  let s1 := { s with trace :=
    s.trace ++ [Req.fetchR connId statementId parameters offset fetchMaxRowCount] }
  match s1.fetchResp with
  | [] => (Except.error Err.noResponse, s1)
  | r :: rest => (r, { s1 with fetchResp := rest })

/-- The coercion table `_set_signature` derives: for each column, by
`columnClassName`: `java.math.BigDecimal` maps to `Decimal`,
`java.lang.Float`/`java.lang.Double` map to `float`, anything else gets
no entry. -/
def deriveDataTypes (sig : Signature) : List (Nat × DType) :=
  (List.range sig.columns.length).filterMap fun i =>
    match sig.columns[i]? with
    | none => none
    | some column =>
      if column.columnClassName = "java.math.BigDecimal" then
        some (i, DType.decimalT)
      else if column.columnClassName = "java.lang.Float"
          ∨ column.columnClassName = "java.lang.Double" then
        some (i, DType.floatT)
      else none

/-- `Cursor._set_id(id)`: a differing held handle is released first;
if that release raises, the assignment `self._id = id` does not run. -/
def set_id (s : Sys) (newId : Nat) : Except Err Unit × Sys :=
  if s.id ≠ none ∧ s.id ≠ some newId then
    match s.id with
    | some old =>
      let (r, s1) := clientCloseStatement s s.connId old
      match r with
      | Except.error e => (Except.error e, s1)
      | Except.ok _ => (Except.ok (), { s1 with id := some newId })
    | none => (Except.ok (), { s with id := some newId })
  else
    (Except.ok (), { s with id := some newId })

/-- `Cursor._set_signature(signature)`: installs the signature, clears
`_data_types`, and rederives it when the signature is not `None`. -/
def set_signature (s : Sys) (sig : Option Signature) : Sys :=
  let s1 := { s with signature := sig, data_types := [] }
  match sig with
  | none => s1
  | some sg => { s1 with data_types := deriveDataTypes sg }

/-- `Cursor._set_frame(frame)`: installs the frame with `_pos = None`;
a non-empty row list sets `_pos = 0`; an empty row list with
`done = False` evaluates the unbound name `InternalError`, raising
`NameError`. -/
def set_frame (s : Sys) (f : Option Frame) : Except Err Unit × Sys :=
  let s1 := { s with frame := f, pos := none }
  match f with
  | none => (Except.ok (), s1)
  | some fr =>
    if fr.rows ≠ [] then (Except.ok (), { s1 with pos := some 0 })
    else if ¬ fr.done then (Except.error (Err.nameError "InternalError"), s1)
    else (Except.ok (), s1)

/-- `Cursor._fetch_next_frame()`: requests the page at
`offset = frame.offset + len(frame.rows)` with
`fetchMaxRowCount = itersize`, then installs the response frame. -/
def fetch_next_frame (s : Sys) : Except Err Unit × Sys :=
  match s.frame with
  | none => (Except.error (Err.programmingError "TypeError: frame is None"), s)
  | some fr =>
    let offset := fr.offset + fr.rows.length
    let (r, s1) := clientFetch s s.connId s.id none (some offset) s.itersize
    match r with
    | Except.error e => (Except.error e, s1)
    | Except.ok f => set_frame s1 (some f)

/-- `Cursor.execute(operation, parameters)`. -/
def execute (s : Sys) (operation : String) (parameters : Option Row) :
    Except Err Unit × Sys :=
  if s.closed then
    (Except.error (Err.programmingError "the cursor is already closed"), s)
  else
    let s := { s with updatecount := -1 }
    match parameters with
    | none =>
      let (r, s1) := clientPrepareAndExecute s s.connId s.id operation s.itersize
      match r with
      | Except.error e => (Except.error e, s1)
      | Except.ok results =>
        match results with
        | [] => (Except.ok (), s1)
        | result :: _ =>
          let step1 : Except Err Unit × Sys :=
            if result.ownStatement then set_id s1 result.statementId
            else (Except.ok (), s1)
          match step1 with
          | (Except.error e, s2) => (Except.error e, s2)
          | (Except.ok _, s2) =>
            let s3 := set_signature s2 result.signature
            match set_frame s3 result.firstFrame with
            | (Except.error e, s4) => (Except.error e, s4)
            | (Except.ok _, s4) =>
              (Except.ok (), { s4 with updatecount := result.updateCount })
    | some params =>
      let (r, s1) := clientPrepare s s.connId s.id operation s.itersize
      match r with
      | Except.error e => (Except.error e, s1)
      | Except.ok statement =>
        match set_id s1 statement.id with
        | (Except.error e, s2) => (Except.error e, s2)
        | (Except.ok _, s2) =>
          let s3 := set_signature s2 statement.signature
          let (rf, s4) := clientFetch s3 s3.connId s3.id (some params) none s3.itersize
          match rf with
          | Except.error e => (Except.error e, s4)
          | Except.ok f => set_frame s4 (some f)

/-- The fetch loop of `executemany`: one `fetch(..., parameters,
fetchMaxRowCount=0)` per parameter set, return values discarded, errors
propagating. -/
def executemanyLoop (s : Sys) : List Row → Except Err Unit × Sys
  | [] => (Except.ok (), s)
  | params :: rest =>
    let (r, s1) := clientFetch s s.connId s.id (some params) none 0
    match r with
    | Except.error e => (Except.error e, s1)
    | Except.ok _ => executemanyLoop s1 rest

/-- `Cursor.executemany(operation, seq_of_parameters)`.  Note that the
signature is assigned directly (`self._signature = ...`), not through
`_set_signature`, so `_data_types` is left untouched. -/
def executemany (s : Sys) (operation : String) (seq_of_parameters : List Row) :
    Except Err Unit × Sys :=
  if s.closed then
    (Except.error (Err.programmingError "the cursor is already closed"), s)
  else
    let s := { s with updatecount := -1 }
    match set_frame s none with
    | (Except.error e, s1) => (Except.error e, s1)
    | (Except.ok _, s1) =>
      let (r, s2) := clientPrepare s1 s1.connId s1.id operation 0
      match r with
      | Except.error e => (Except.error e, s2)
      | Except.ok statement =>
        match set_id s2 statement.id with
        | (Except.error e, s3) => (Except.error e, s3)
        | (Except.ok _, s3) =>
          let s4 := { s3 with signature := statement.signature }
          executemanyLoop s4 seq_of_parameters

/-- The coercion application loop at the end of `fetchone`: for each
`(i, data_type)` in `_data_types`, if `row[i]` is not `None`, replace it
by `data_type(row[i])`.  Reading `row[i]` out of bounds raises
`IndexError`. -/
def applyCoercions : List (Nat × DType) → Row → Except Err Row
  | [], row => Except.ok row
  | (i, dt) :: rest, row =>
    match row[i]? with
    | none => Except.error Err.indexError
    | some v =>
      if v = PyVal.pynone then applyCoercions rest row
      else applyCoercions rest (row.set i (applyDT dt v))

/-- `Cursor.fetchone()`. -/
def fetchone (s : Sys) : Except Err (Option Row) × Sys :=
  match s.frame with
  | none =>
    (Except.error (Err.programmingError "no select statement was executed"), s)
  | some fr =>
    match s.pos with
    | none => (Except.ok none, s)
    | some p =>
      match fr.rows[p]? with
      | none => (Except.error Err.indexError, s)
      | some row =>
        let s1 := { s with pos := some (p + 1) }
        let step : Except Err Unit × Sys :=
          if p + 1 ≥ fr.rows.length then
            let s2 := { s1 with pos := none }
            if ¬ fr.done then fetch_next_frame s2
            else (Except.ok (), s2)
          else (Except.ok (), s1)
        match step with
        | (Except.error e, s2) => (Except.error e, s2)
        | (Except.ok _, s2) =>
          match applyCoercions s2.data_types row with
          | Except.error e => (Except.error e, s2)
          | Except.ok row1 => (Except.ok (some row1), s2)

/-- The `while`-loop shared by `fetchmany` and (as its fuel-indexed
unfolding) `fetchall`: up to `n` calls of `fetchone`, stopping early at
`None`, collecting the rows in order. -/
def drain : Nat → Sys → Except Err (List Row) × Sys
  | 0, s => (Except.ok [], s)
  | n + 1, s =>
    match fetchone s with
    | (Except.error e, s1) => (Except.error e, s1)
    | (Except.ok none, s1) => (Except.ok [], s1)
    | (Except.ok (some row), s1) =>
      match drain n s1 with
      | (Except.error e, s2) => (Except.error e, s2)
      | (Except.ok rows, s2) => (Except.ok (row :: rows), s2)

/-- `Cursor.fetchmany(size)`: `size` defaults to `arraysize`; the loop
runs while `size > 0`, so a non-positive size collects nothing. -/
def fetchmany (s : Sys) (size : Option Int) : Except Err (List Row) × Sys :=
  drain (size.getD s.arraysize).toNat s

/-- `Cursor.fetchall()` is the same loop without a bound; with fuel at
least the total number of remaining rows plus one, `drain` computes it
exactly (the run ends by `fetchone` returning `None`, which the theorems
express as the result being shorter than the fuel). -/
def fetchallFuel (fuel : Nat) (s : Sys) : Except Err (List Row) × Sys :=
  drain fuel s

/-- `Cursor.close()`. -/
def close (s : Sys) : Except Err Unit × Sys :=
  if s.closed then
    (Except.error (Err.programmingError "the cursor is already closed"), s)
  else
    let step : Except Err Unit × Sys :=
      match s.id with
      | some sid =>
        let (r, s1) := clientCloseStatement s s.connId sid
        match r with
        | Except.error e => (Except.error e, s1)
        | Except.ok _ => (Except.ok (), { s1 with id := none })
      | none => (Except.ok (), s)
    match step with
    | (Except.error e, s1) => (Except.error e, s1)
    | (Except.ok _, s1) =>
      (Except.ok (), { s1 with
        signature := none, data_types := [], frame := none, pos := none,
        closed := true })

/-- `Cursor.__del__`: `if not self._connection._closed and not
self._closed: self.close()`.  Per the documented semantics of Python
finalizers (`object.__del__`), an exception raised during `__del__` is
ignored by the interpreter and never reaches any caller; the embedding
therefore returns the state as the raise left it, discarding the
error. -/
def delFinalizer (s : Sys) : Sys :=
  if ¬ s.connClosed ∧ ¬ s.closed then (close s).2
  else s

/-- `k` successive `fetchmany(n)` calls, collecting the returned chunks
in order. -/
def fetchmanyChain (n : Int) : Nat → Sys → Except Err (List (List Row)) × Sys
  | 0, s => (Except.ok [], s)
  | k + 1, s =>
    match fetchmany s (some n) with
    | (Except.error e, s1) => (Except.error e, s1)
    | (Except.ok chunk, s1) =>
      match fetchmanyChain n k s1 with
      | (Except.error e, s2) => (Except.error e, s2)
      | (Except.ok chunks, s2) => (Except.ok (chunk :: chunks), s2)

/-- `Cursor.rowcount`. -/
def rowcount (s : Sys) : Int := s.updatecount

/-- `Cursor.rownumber`. -/
def rownumber (s : Sys) : Option Int :=
  match s.frame, s.pos with
  | some fr, some p => some (fr.offset + p)
  | _, _ => none

/-- Whether a request is a `prepare` call. -/
def Req.isPrep : Req → Bool
  | Req.prepareR _ _ _ _ => true
  | _ => false

/-- Whether a request is a `fetch` call. -/
def Req.isFetch : Req → Bool
  | Req.fetchR _ _ _ _ _ => true
  | _ => false

/-- The offsets of the explicit-offset (pagination) `fetch` requests in a
trace segment, in order. -/
def fetchOffsets : List Req → List Int
  | [] => []
  | Req.fetchR _ _ _ (some off) _ :: rest => off :: fetchOffsets rest
  | _ :: rest => fetchOffsets rest

/-- The collaborator honours the pagination contract: starting from the
expected next offset, each scripted `fetch` response reports exactly the
offset at which it was requested (nothing is constrained past an error
response, which aborts iteration). -/
def honestFrom : Int → List (Except Err Frame) → Prop
  | _, [] => True
  | off, Except.ok f :: rest => f.offset = off ∧ honestFrom (off + f.rows.length) rest
  | _, Except.error _ :: _ => True

/-! ### Concrete fixtures used by witnesses and counterexamples -/

/-- A freshly constructed cursor on connection 7 with empty response
scripts and default sizes. -/
def baseSys : Sys :=
  { connId := 7, connClosed := false, id := none, signature := none,
    data_types := [], frame := none, pos := none, closed := false,
    arraysize := 1, itersize := 2000, updatecount := -1,
    closeResp := [], prepExecResp := [], prepResp := [], fetchResp := [],
    trace := [] }

/-- An integer column (no coercion entry). -/
def colInt : Column := { columnName := "A", columnClassName := "java.lang.Integer" }

/-- A decimal column (coerced to `Decimal`). -/
def colDec : Column := { columnName := "B", columnClassName := "java.math.BigDecimal" }

/-- A double column (coerced to `float`). -/
def colFlt : Column := { columnName := "C", columnClassName := "java.lang.Double" }

/-- A three-column signature exercising all coercion branches. -/
def sigMix : Signature := { columns := [colInt, colDec, colFlt] }

/-- A one-column signature with no coercible column. -/
def sigInt : Signature := { columns := [colInt] }

/-- Page 0 of a five-row result set, two rows, more pages follow. -/
def page0 : Frame :=
  { offset := 0, done := false,
    rows := [[PyVal.prim "1", PyVal.prim "2.5", PyVal.prim "3.5"],
             [PyVal.prim "4", PyVal.pynone, PyVal.prim "6.5"]] }

/-- Page 1, two rows, more pages follow. -/
def page1 : Frame :=
  { offset := 2, done := false,
    rows := [[PyVal.prim "a", PyVal.prim "b", PyVal.prim "c"],
             [PyVal.prim "d", PyVal.prim "e", PyVal.prim "f"]] }

/-- Page 2, one row, final page. -/
def page2 : Frame :=
  { offset := 4, done := true,
    rows := [[PyVal.prim "g", PyVal.prim "h", PyVal.prim "i"]] }

/-- A final frame carrying no rows, as a DML fetch returns. -/
def doneFrame : Frame := { offset := 0, done := true, rows := [] }

/-- The malformed frame of the protocol-violation scenario: no rows, yet
not done. -/
def badFrame : Frame := { offset := 0, done := false, rows := [] }

/-- A cursor mid-iteration: statement 3 prepared, `sigMix` installed,
page 0 buffered at position 0, batch size 2, pages 1 and 2 scripted. -/
def sIter : Sys :=
  { baseSys with
    id := some 3, signature := some sigMix, data_types := deriveDataTypes sigMix,
    frame := some page0, pos := some 0, itersize := 2,
    fetchResp := [Except.ok page1, Except.ok page2] }

/-! ### Step equations for the fetch loop -/

/-- Unfolding `drain` when `fetchone` raises. -/
theorem drain_err (f : Nat) (s t1 : Sys) (e : Err)
    (h1 : fetchone s = (Except.error e, t1)) :
    drain (f + 1) s = (Except.error e, t1) := by
  show (match fetchone s with
    | (Except.error e, s1) => (Except.error e, s1)
    | (Except.ok none, s1) => (Except.ok [], s1)
    | (Except.ok (some row), s1) =>
      match drain f s1 with
      | (Except.error e, s2) => (Except.error e, s2)
      | (Except.ok rows, s2) => (Except.ok (row :: rows), s2)) = _
  rw [h1]

/-- Unfolding `drain` when `fetchone` reports end of results. -/
theorem drain_none (f : Nat) (s t1 : Sys)
    (h1 : fetchone s = (Except.ok none, t1)) :
    drain (f + 1) s = (Except.ok [], t1) := by
  show (match fetchone s with
    | (Except.error e, s1) => (Except.error e, s1)
    | (Except.ok none, s1) => (Except.ok [], s1)
    | (Except.ok (some row), s1) =>
      match drain f s1 with
      | (Except.error e, s2) => (Except.error e, s2)
      | (Except.ok rows, s2) => (Except.ok (row :: rows), s2)) = _
  rw [h1]

/-- Unfolding `drain` when `fetchone` yields a row and the remaining loop
succeeds. -/
theorem drain_some_ok (f : Nat) (s t1 s2 : Sys) (row : Row) (rows : List Row)
    (h1 : fetchone s = (Except.ok (some row), t1))
    (h2 : drain f t1 = (Except.ok rows, s2)) :
    drain (f + 1) s = (Except.ok (row :: rows), s2) := by
  show (match fetchone s with
    | (Except.error e, s1) => (Except.error e, s1)
    | (Except.ok none, s1) => (Except.ok [], s1)
    | (Except.ok (some row), s1) =>
      match drain f s1 with
      | (Except.error e, s2) => (Except.error e, s2)
      | (Except.ok rows, s2) => (Except.ok (row :: rows), s2)) = _
  rw [h1]
  show (match drain f t1 with
      | (Except.error e, s2) => (Except.error e, s2)
      | (Except.ok rows, s2) => (Except.ok (row :: rows), s2)) = _
  rw [h2]

/-- Unfolding `drain` when `fetchone` yields a row and the remaining loop
raises. -/
theorem drain_some_err (f : Nat) (s t1 s2 : Sys) (row : Row) (e : Err)
    (h1 : fetchone s = (Except.ok (some row), t1))
    (h2 : drain f t1 = (Except.error e, s2)) :
    drain (f + 1) s = (Except.error e, s2) := by
  show (match fetchone s with
    | (Except.error e, s1) => (Except.error e, s1)
    | (Except.ok none, s1) => (Except.ok [], s1)
    | (Except.ok (some row), s1) =>
      match drain f s1 with
      | (Except.error e, s2) => (Except.error e, s2)
      | (Except.ok rows, s2) => (Except.ok (row :: rows), s2)) = _
  rw [h1]
  show (match drain f t1 with
      | (Except.error e, s2) => (Except.error e, s2)
      | (Except.ok rows, s2) => (Except.ok (row :: rows), s2)) = _
  rw [h2]
/-- `fetchone` reports end-of-results only from the sentinel position,
without touching any state. -/
theorem fetchone_none_fixed (s u : Sys)
    (h : fetchone s = (Except.ok none, u)) :
    u = s ∧ s.pos = none ∧ s.frame ≠ none := by
  unfold fetchone at h
  split at h
  next hf => simp at h
  next fr hf =>
    split at h
    next hp =>
      simp only [Prod.mk.injEq] at h
      exact ⟨h.2.symm, hp, by simp [hf]⟩
    next p hp =>
      split at h
      next => simp at h
      next row hr =>
        exfalso
        dsimp only at h
        split at h
        next => simp at h
        next =>
          split at h
          next => simp at h
          next => simp at h

/-- A cursor standing at the sentinel keeps answering `None`: the fetch
loop collects nothing from it at any fuel. -/
theorem drain_absorb (b : Nat) (s : Sys)
    (h : fetchone s = (Except.ok none, s)) :
    drain b s = (Except.ok [], s) := by
  cases b with
  | zero => rfl
  | succ m => exact drain_none m s s h

/-- Splitting the fuel of the fetch loop: an error in the first part is
the error of the whole. -/
theorem drain_add_err (a : Nat) :
    ∀ (b : Nat) (s s1 : Sys) (e : Err), drain a s = (Except.error e, s1) →
      drain (a + b) s = (Except.error e, s1) := by
  induction a with
  | zero => intro b s s1 e h; simp [drain] at h
  | succ m ih =>
    intro b s s1 e h
    rcases h1 : fetchone s with ⟨r1, t1⟩
    cases r1 with
    | error e1 =>
      rw [drain_err m s t1 e1 h1] at h
      rw [Nat.succ_add, drain_err (m + b) s t1 e1 h1]
      exact h
    | ok o =>
      cases o with
      | none =>
        rw [drain_none m s t1 h1] at h
        simp at h
      | some row =>
        rcases h2 : drain m t1 with ⟨r2, t2⟩
        cases r2 with
        | error e2 =>
          rw [drain_some_err m s t1 t2 row e2 h1 h2] at h
          injection h with he hs
          subst hs
          injection he with he2
          subst he2
          rw [Nat.succ_add]
          exact drain_some_err (m + b) s t1 t2 row e2 h1 (ih b t1 t2 e2 h2)
        | ok rows =>
          rw [drain_some_ok m s t1 t2 row rows h1 h2] at h
          simp at h

/-- Splitting the fuel of the fetch loop, both parts succeeding. -/
theorem drain_add_ok (a : Nat) :
    ∀ (b : Nat) (s s1 s2 : Sys) (r1 r2 : List Row),
      drain a s = (Except.ok r1, s1) → drain b s1 = (Except.ok r2, s2) →
      drain (a + b) s = (Except.ok (r1 ++ r2), s2) := by
  induction a with
  | zero =>
    intro b s s1 s2 r1 r2 h1 h2
    simp only [drain] at h1
    injection h1 with he hs
    subst hs
    injection he with he2
    subst he2
    simpa using h2
  | succ m ih =>
    intro b s s1 s2 r1 r2 h1 h2
    rcases hf : fetchone s with ⟨rf, tf⟩
    cases rf with
    | error e =>
      rw [drain_err m s tf e hf] at h1
      simp at h1
    | ok o =>
      cases o with
      | none =>
        rw [drain_none m s tf hf] at h1
        injection h1 with he hs
        subst hs
        injection he with he2
        subst he2
        have hfix := fetchone_none_fixed s tf hf
        have hts := hfix.1
        subst hts
        rw [drain_absorb b tf hf] at h2
        injection h2 with he2 hs2
        subst hs2
        injection he2 with he3
        subst he3
        rw [Nat.succ_add]
        simpa using drain_none (m + b) tf tf hf
      | some row =>
        rcases hd : drain m tf with ⟨rd, td⟩
        cases rd with
        | error e =>
          rw [drain_some_err m s tf td row e hf hd] at h1
          simp at h1
        | ok rest =>
          rw [drain_some_ok m s tf td row rest hf hd] at h1
          injection h1 with he hs
          subst hs
          injection he with he2
          subst he2
          rw [Nat.succ_add]
          exact drain_some_ok (m + b) s tf s2 row (rest ++ r2) hf
            (ih b tf td s2 rest r2 hd h2)

/-- The fetch loop never collects more rows than its fuel. -/
theorem drain_le (a : Nat) :
    ∀ (s s1 : Sys) (rows : List Row), drain a s = (Except.ok rows, s1) →
      rows.length ≤ a := by
  induction a with
  | zero =>
    intro s s1 rows h
    simp only [drain] at h
    injection h with he hs
    injection he with he2
    subst he2
    simp
  | succ m ih =>
    intro s s1 rows h
    rcases hf : fetchone s with ⟨rf, tf⟩
    cases rf with
    | error e => rw [drain_err m s tf e hf] at h; simp at h
    | ok o =>
      cases o with
      | none =>
        rw [drain_none m s tf hf] at h
        injection h with he hs
        injection he with he2
        subst he2
        simp
      | some row =>
        rcases hd : drain m tf with ⟨rd, td⟩
        cases rd with
        | error e => rw [drain_some_err m s tf td row e hf hd] at h; simp at h
        | ok rest =>
          rw [drain_some_ok m s tf td row rest hf hd] at h
          injection h with he hs
          injection he with he2
          subst he2
          simpa using Nat.succ_le_succ (ih tf td rest hd)

/-- A fetch-loop run that returns fewer rows than its fuel ended because
`fetchone` answered `None`; the final state is saturated. -/
theorem drain_saturated (a : Nat) :
    ∀ (s s1 : Sys) (rows : List Row), drain a s = (Except.ok rows, s1) →
      rows.length < a → fetchone s1 = (Except.ok none, s1) := by
  induction a with
  | zero => intro s s1 rows h hlt; exact absurd hlt (by simp)
  | succ m ih =>
    intro s s1 rows h hlt
    rcases hf : fetchone s with ⟨rf, tf⟩
    cases rf with
    | error e => rw [drain_err m s tf e hf] at h; simp at h
    | ok o =>
      cases o with
      | none =>
        rw [drain_none m s tf hf] at h
        injection h with he hs
        subst hs
        have hfix := fetchone_none_fixed s tf hf
        rw [hfix.1] at hf ⊢
        exact hf
      | some row =>
        rcases hd : drain m tf with ⟨rd, td⟩
        cases rd with
        | error e => rw [drain_some_err m s tf td row e hf hd] at h; simp at h
        | ok rest =>
          rw [drain_some_ok m s tf td row rest hf hd] at h
          injection h with he hs
          subst hs
          injection he with he2
          subst he2
          exact ih tf td rest hd (by simpa using Nat.lt_of_succ_lt_succ hlt)

/-- A saturated fetch-loop result is stable under any larger fuel. -/
theorem drain_stable (a b : Nat) (s s1 : Sys) (rows : List Row)
    (h : drain a s = (Except.ok rows, s1)) (hlt : rows.length < a)
    (hab : a ≤ b) : drain b s = (Except.ok rows, s1) := by
  have hsat := drain_saturated a s s1 rows h hlt
  have habs := drain_absorb (b - a) s1 hsat
  have hcomp := drain_add_ok a (b - a) s s1 s1 rows [] h habs
  rw [Nat.add_sub_cancel' hab] at hcomp
  simpa using hcomp

/-- `fetchmany` with an explicit size is exactly the bounded fetch
loop. -/
theorem fetchmany_eq_drain (s : Sys) (n : Int) :
    fetchmany s (some n) = drain n.toNat s := rfl

/-- Unfolding `fetchmanyChain` when the first `fetchmany` call and the
remaining chain succeed. -/
theorem chain_succ_ok (n : Int) (k : Nat) (s t1 t2 : Sys)
    (chunk : List Row) (chunks : List (List Row))
    (h1 : fetchmany s (some n) = (Except.ok chunk, t1))
    (h2 : fetchmanyChain n k t1 = (Except.ok chunks, t2)) :
    fetchmanyChain n (k + 1) s = (Except.ok (chunk :: chunks), t2) := by
  show (match fetchmany s (some n) with
    | (Except.error e, s1) => (Except.error e, s1)
    | (Except.ok chunk, s1) =>
      match fetchmanyChain n k s1 with
      | (Except.error e, s2) => (Except.error e, s2)
      | (Except.ok chunks, s2) => (Except.ok (chunk :: chunks), s2)) = _
  rw [h1]
  show (match fetchmanyChain n k t1 with
      | (Except.error e, s2) => (Except.error e, s2)
      | (Except.ok chunks, s2) => (Except.ok (chunk :: chunks), s2)) = _
  rw [h2]

/-- A successful chain of `k` `fetchmany(n)` calls is one fetch-loop run
of fuel `n * k` whose rows are the concatenation of the chunks. -/
theorem chain_join (n : Int) (k : Nat) :
    ∀ (s s1 : Sys) (chunks : List (List Row)),
      fetchmanyChain n k s = (Except.ok chunks, s1) →
      drain (n.toNat * k) s = (Except.ok chunks.flatten, s1) ∧
      chunks.length = k ∧ ∀ c ∈ chunks, c.length ≤ n.toNat := by
  induction k with
  | zero =>
    intro s s1 chunks h
    simp only [fetchmanyChain] at h
    injection h with he hs
    subst hs
    injection he with he2
    subst he2
    exact ⟨rfl, rfl, by simp⟩
  | succ m ih =>
    intro s s1 chunks h
    rcases hm : fetchmany s (some n) with ⟨rm, tm⟩
    cases rm with
    | error e =>
      exfalso
      have : fetchmanyChain n (m + 1) s = (Except.error e, tm) := by
        show (match fetchmany s (some n) with
          | (Except.error e, s1) => (Except.error e, s1)
          | (Except.ok chunk, s1) =>
            match fetchmanyChain n m s1 with
            | (Except.error e, s2) => (Except.error e, s2)
            | (Except.ok chunks, s2) => (Except.ok (chunk :: chunks), s2)) = _
        rw [hm]
      rw [this] at h
      simp at h
    | ok chunk =>
      rcases hc : fetchmanyChain n m tm with ⟨rc, tc⟩
      cases rc with
      | error e =>
        exfalso
        have : fetchmanyChain n (m + 1) s = (Except.error e, tc) := by
          show (match fetchmany s (some n) with
            | (Except.error e, s1) => (Except.error e, s1)
            | (Except.ok chunk, s1) =>
              match fetchmanyChain n m s1 with
              | (Except.error e, s2) => (Except.error e, s2)
              | (Except.ok chunks, s2) => (Except.ok (chunk :: chunks), s2)) = _
          rw [hm]
          show (match fetchmanyChain n m tm with
              | (Except.error e, s2) => (Except.error e, s2)
              | (Except.ok chunks, s2) => (Except.ok (chunk :: chunks), s2)) = _
          rw [hc]
        rw [this] at h
        simp at h
      | ok rest =>
        rw [chain_succ_ok n m s tm tc chunk rest hm hc] at h
        injection h with he hs
        subst hs
        injection he with he2
        subst he2
        obtain ⟨ihd, ihlen, ihbound⟩ := ih tm tc rest hc
        rw [fetchmany_eq_drain] at hm
        refine ⟨?_, by simp [ihlen], ?_⟩
        · have := drain_add_ok n.toNat (n.toNat * m) s tm tc chunk rest.flatten hm ihd
          rw [Nat.mul_succ, Nat.add_comm (n.toNat * m) n.toNat] at *
          simpa using this
        · intro c hcmem
          rcases List.mem_cons.mp hcmem with hceq | hcm
          · subst hceq
            exact drain_le n.toNat s tm c hm
          · exact ihbound c hcm

/-- Sums of lists of bounded naturals are bounded. -/
theorem sum_le_mul_of_forall_le (l : List Nat) (n : Nat)
    (h : ∀ x ∈ l, x ≤ n) : l.sum ≤ l.length * n := by
  induction l with
  | nil => simp
  | cons x xs ih =>
    simp only [List.sum_cons, List.length_cons]
    have hx := h x (by simp)
    have hxs := ih (fun y hy => h y (by simp [hy]))
    calc x + xs.sum ≤ n + xs.length * n := Nat.add_le_add hx hxs
    _ = (xs.length + 1) * n := by ring

/-! ### Claim C9 -/

/-- C9: for every executed query and every positive `n`, the
concatenation of the row lists returned by successive `fetchMany(n)`
calls until one returns fewer than `n` rows equals, in order, the row
list a single `fetchAll()` returns on the same executed query (the
`fetchAll` loop being its fuel-indexed unfolding run to completion, i.e.
with a result shorter than the fuel), and both leave the cursor in the
same state. -/
theorem C9_fetchmany_partition (n : Int) (k F : Nat) (s s1 s2 : Sys)
    (chunks : List (List Row)) (allRows : List Row) (lastChunk : List Row)
    (hn : 0 < n)
    (hchain : fetchmanyChain n k s = (Except.ok chunks, s1))
    (hlast : chunks.getLast? = some lastChunk)
    (hshort : lastChunk.length < n.toNat)
    (hall : fetchallFuel F s = (Except.ok allRows, s2))
    (hsat : allRows.length < F) :
    chunks.flatten = allRows ∧ s1 = s2 := by
  obtain ⟨hd, hlen, hbound⟩ := chain_join n k s s1 chunks hchain
  have hne : chunks ≠ [] := by
    intro hc
    rw [hc] at hlast
    simp at hlast
  have hflat : chunks.flatten.length < n.toNat * k := by
    rw [List.length_flatten]
    have hsplit : chunks.dropLast ++ [chunks.getLast hne] = chunks :=
      List.dropLast_append_getLast hne
    have hlast2 : chunks.getLast hne = lastChunk := by
      have hq := List.getLast?_eq_getLast chunks hne
      rw [hq] at hlast
      exact Option.some.inj hlast
    have hsum : (chunks.map List.length).sum
        = (chunks.dropLast.map List.length).sum + lastChunk.length := by
      conv_lhs => rw [← hsplit]
      rw [List.map_append, List.sum_append]
      simp [hlast2]
    rw [hsum]
    have hdls : (chunks.dropLast.map List.length).sum
        ≤ (chunks.dropLast.map List.length).length * n.toNat := by
      apply sum_le_mul_of_forall_le
      intro x hx
      rcases List.mem_map.mp hx with ⟨c, hcm, hcx⟩
      subst hcx
      exact hbound c ((List.dropLast_sublist chunks).subset hcm)
    rw [List.length_map] at hdls
    have hk1 : 1 ≤ k := by
      rcases Nat.eq_zero_or_pos k with hk0 | hk
      · exfalso
        apply hne
        rw [hk0] at hlen
        exact List.eq_nil_of_length_eq_zero hlen
      · exact hk
    have hdll : chunks.dropLast.length = k - 1 := by
      rw [List.length_dropLast, hlen]
    rw [hdll] at hdls
    have hstep : (chunks.dropLast.map List.length).sum + lastChunk.length
        < (k - 1) * n.toNat + n.toNat :=
      Nat.add_lt_add_of_le_of_lt hdls hshort
    have hmul : (k - 1) * n.toNat + n.toNat = n.toNat * k := by
      have hk2 : k = (k - 1) + 1 := (Nat.succ_pred_eq_of_pos hk1).symm
      calc (k - 1) * n.toNat + n.toNat = ((k - 1) + 1) * n.toNat := by ring
      _ = n.toNat * k := by rw [← hk2, Nat.mul_comm]
    rw [hmul] at hstep
    exact hstep
  have hall2 : drain F s = (Except.ok allRows, s2) := hall
  have hbig1 : drain (max (n.toNat * k) F) s = (Except.ok chunks.flatten, s1) :=
    drain_stable (n.toNat * k) (max (n.toNat * k) F) s s1 chunks.flatten hd hflat
      (le_max_left (n.toNat * k) F)
  have hbig2 : drain (max (n.toNat * k) F) s = (Except.ok allRows, s2) :=
    drain_stable F (max (n.toNat * k) F) s s2 allRows hall2 hsat
      (le_max_right (n.toNat * k) F)
  rw [hbig1] at hbig2
  injection hbig2 with he hs
  exact ⟨Except.ok.inj he, hs⟩

/-! ### Case analysis of `fetchone` -/

/-- With a frame installed and the position at the sentinel, `fetchone`
returns `None` and changes nothing. -/
theorem fetchone_pos_none (s : Sys) (fr : Frame)
    (hf : s.frame = some fr) (hp : s.pos = none) :
    fetchone s = (Except.ok none, s) := by
  unfold fetchone
  rw [hf]
  show (match s.pos with
    | none => (Except.ok none, s)
    | some p => _) = _
  rw [hp]
/-- Reading the current row while well inside the buffered page: the
position advances and the row is returned with every coercion of
`_data_types` applied at this moment. -/
theorem fetchone_mid (s : Sys) (fr : Frame) (p : Nat) (row : Row)
    (hf : s.frame = some fr) (hp : s.pos = some p) (hr : fr.rows[p]? = some row)
    (hlt : p + 1 < fr.rows.length) :
    fetchone s = (Except.map some (applyCoercions s.data_types row),
      { s with pos := some (p + 1) }) := by
  simp only [fetchone, hf, hp, hr]
  rw [if_neg (by omega : ¬ p + 1 ≥ fr.rows.length)]
  show (match applyCoercions s.data_types row with
        | Except.error e =>
          (Except.error e, { s with frame := some fr, pos := some (p + 1) })
        | Except.ok row1 =>
          (Except.ok (some row1), { s with frame := some fr, pos := some (p + 1) })) = _
  cases applyCoercions s.data_types row <;> rfl

/-- Reading the current row at an out-of-bounds position raises
`IndexError` without touching state (unreachable under the cursor's
invariant, but the embedding keeps Python's behaviour). -/
theorem fetchone_idx_err (s : Sys) (fr : Frame) (p : Nat)
    (hf : s.frame = some fr) (hp : s.pos = some p) (hr : fr.rows[p]? = none) :
    fetchone s = (Except.error Err.indexError, s) := by
  simp only [fetchone, hf, hp, hr]

/-- Reading the last buffered row of the final page: the position falls
to the sentinel, no further page is requested, and the row is returned
coerced. -/
theorem fetchone_done (s : Sys) (fr : Frame) (p : Nat) (row : Row)
    (hf : s.frame = some fr) (hp : s.pos = some p) (hr : fr.rows[p]? = some row)
    (hge : p + 1 ≥ fr.rows.length) (hdone : fr.done = true) :
    fetchone s = (Except.map some (applyCoercions s.data_types row),
      { s with pos := none }) := by
  simp only [fetchone, hf, hp, hr]
  rw [if_pos hge, if_neg (by simp [hdone] : ¬ ¬ fr.done = true)]
  show (match applyCoercions s.data_types row with
        | Except.error e => (Except.error e, { s with frame := some fr, pos := none })
        | Except.ok row1 =>
          (Except.ok (some row1), { s with frame := some fr, pos := none })) = _
  cases applyCoercions s.data_types row <;> rfl

/-- Reading the last buffered row of a non-final page: the next page is
requested synchronously; on success the row (captured before the
replacement) is returned coerced, an error propagates instead of the
row. -/
theorem fetchone_cross (s : Sys) (fr : Frame) (p : Nat) (row : Row)
    (hf : s.frame = some fr) (hp : s.pos = some p) (hr : fr.rows[p]? = some row)
    (hge : p + 1 ≥ fr.rows.length) (hdone : fr.done = false) :
    fetchone s =
      (match fetch_next_frame { s with pos := none } with
       | (Except.error e, t) => (Except.error e, t)
       | (Except.ok _, t) => (Except.map some (applyCoercions t.data_types row), t)) := by
  simp only [fetchone, hf, hp, hr]
  rw [if_pos hge, if_pos (by simp [hdone] : ¬ fr.done = true)]
  rcases hfn : fetch_next_frame { s with frame := some fr, pos := none } with ⟨rf, tf⟩
  cases rf with
  | error e => rfl
  | ok u =>
    show (match applyCoercions tf.data_types row with
          | Except.error e => (Except.error e, tf)
          | Except.ok row1 => (Except.ok (some row1), tf))
        = (Except.map some (applyCoercions tf.data_types row), tf)
    cases applyCoercions tf.data_types row <;> rfl

/-! ### Case analysis of `_fetch_next_frame` -/

/-- The pagination request `_fetch_next_frame` issues from a buffered
frame, regardless of the response. -/
def nextPageReq (s : Sys) (fr : Frame) : Req :=
  Req.fetchR s.connId s.id none (some (fr.offset + fr.rows.length)) s.itersize

/-- `_fetch_next_frame` with an exhausted response script: the request is
still issued, the modelling-artifact error returned. -/
theorem fnf_noresp (s : Sys) (fr : Frame)
    (hf : s.frame = some fr) (hresp : s.fetchResp = []) :
    fetch_next_frame s = (Except.error Err.noResponse,
      { s with trace := s.trace ++ [nextPageReq s fr] }) := by
  simp only [fetch_next_frame, clientFetch, nextPageReq, hf, hresp]

/-- `_fetch_next_frame` when the collaborator raises: the error
propagates, the response consumed, no frame change. -/
theorem fnf_err (s : Sys) (fr : Frame) (e : Err) (rest : List (Except Err Frame))
    (hf : s.frame = some fr) (hresp : s.fetchResp = Except.error e :: rest) :
    fetch_next_frame s = (Except.error e,
      { s with fetchResp := rest, trace := s.trace ++ [nextPageReq s fr] }) := by
  simp only [fetch_next_frame, clientFetch, nextPageReq, hf, hresp]

/-- `_fetch_next_frame` on a successful response installs the returned
frame through `_set_frame`. -/
theorem fnf_ok (s : Sys) (fr f : Frame) (rest : List (Except Err Frame))
    (hf : s.frame = some fr) (hresp : s.fetchResp = Except.ok f :: rest) :
    fetch_next_frame s = set_frame
      { s with fetchResp := rest, trace := s.trace ++ [nextPageReq s fr] }
      (some f) := by
  simp only [fetch_next_frame, clientFetch, nextPageReq, hf, hresp]

/-- Unfolding `_set_frame` on a frame with rows. -/
theorem set_frame_rows (s : Sys) (f : Frame) (hrows : f.rows ≠ []) :
    set_frame s (some f) = (Except.ok (), { s with frame := some f, pos := some 0 }) := by
  simp only [set_frame]
  rw [if_pos hrows]

/-- Unfolding `_set_frame` on an empty final frame. -/
theorem set_frame_done (s : Sys) (f : Frame) (hrows : f.rows = [])
    (hdone : f.done = true) :
    set_frame s (some f) = (Except.ok (), { s with frame := some f, pos := none }) := by
  simp only [set_frame]
  rw [if_neg (by simp [hrows]), if_neg (by simp [hdone])]

/-- Unfolding `_set_frame` on the malformed empty-but-not-done frame:
the unbound name `InternalError` is evaluated, so Python raises
`NameError`. -/
theorem set_frame_violation (s : Sys) (f : Frame) (hrows : f.rows = [])
    (hdone : f.done = false) :
    set_frame s (some f) = (Except.error (Err.nameError "InternalError"),
      { s with frame := some f, pos := none }) := by
  simp only [set_frame]
  rw [if_neg (by simp [hrows]), if_pos (by simp [hdone])]

/-- During any run of the fetch loop from a buffered frame, against a
collaborator that reports frames at the requested offsets, the
pagination requests issued are exactly at expected offsets: each is at
least the current frame's end, and they are strictly increasing in
order. -/
theorem drain_offsets (fuel : Nat) :
    ∀ (s : Sys) (fr : Frame), s.frame = some fr →
      honestFrom (fr.offset + fr.rows.length) s.fetchResp →
      ∃ d, (drain fuel s).2.trace = s.trace ++ d ∧
        (∀ o ∈ fetchOffsets d, fr.offset + fr.rows.length ≤ o) ∧
        List.Chain' (fun a b => a < b) (fetchOffsets d) := by
  induction fuel with
  | zero =>
    intro s fr hf hh
    exact ⟨[], by simp [drain], by simp [fetchOffsets], by simp [fetchOffsets]⟩
  | succ m ih =>
    intro s fr hf hh
    cases hp : s.pos with
    | none =>
      rw [drain_none m s s (fetchone_pos_none s fr hf hp)]
      exact ⟨[], by simp, by simp [fetchOffsets], by simp [fetchOffsets]⟩
    | some p =>
      cases hr : fr.rows[p]? with
      | none =>
        rw [drain_err m s s Err.indexError (fetchone_idx_err s fr p hf hp hr)]
        exact ⟨[], by simp, by simp [fetchOffsets], by simp [fetchOffsets]⟩
      | some row =>
        by_cases hcross : p + 1 ≥ fr.rows.length
        · by_cases hdone : fr.done = true
          · -- final page: no request, position falls to sentinel
            have hstep := fetchone_done s fr p row hf hp hr hcross hdone
            cases hac : applyCoercions s.data_types row with
            | error e =>
              rw [hac] at hstep
              rw [drain_err m s { s with pos := none } e hstep]
              exact ⟨[], by simp, by simp [fetchOffsets], by simp [fetchOffsets]⟩
            | ok row1 =>
              rw [hac] at hstep
              have habs : drain m { s with pos := none } =
                  (Except.ok [], { s with pos := none }) :=
                drain_absorb m _ (fetchone_pos_none _ fr hf rfl)
              rw [drain_some_ok m s { s with pos := none } { s with pos := none }
                row1 [] hstep habs]
              exact ⟨[], by simp, by simp [fetchOffsets], by simp [fetchOffsets]⟩
          · -- crossing into the next page
            have hdf : fr.done = false := by
              cases hq : fr.done
              · rfl
              · exact absurd hq hdone
            have hstep := fetchone_cross s fr p row hf hp hr hcross hdf
            cases hresp : s.fetchResp with
            | nil =>
              rw [fnf_noresp { s with pos := none } fr hf hresp] at hstep
              rw [drain_err m s _ Err.noResponse hstep]
              refine ⟨[nextPageReq { s with pos := none } fr], by simp, ?_, ?_⟩
              · intro o ho
                simp [nextPageReq, fetchOffsets] at ho
                omega
              · simp [nextPageReq, fetchOffsets]
            | cons resp rest =>
              cases resp with
              | error e =>
                rw [fnf_err { s with pos := none } fr e rest hf hresp] at hstep
                rw [drain_err m s _ e hstep]
                refine ⟨[nextPageReq { s with pos := none } fr], by simp, ?_, ?_⟩
                · intro o ho
                  simp [nextPageReq, fetchOffsets] at ho
                  omega
                · simp [nextPageReq, fetchOffsets]
              | ok f =>
                have hhon : f.offset = fr.offset + fr.rows.length ∧
                    honestFrom (fr.offset + fr.rows.length + f.rows.length) rest := by
                  rw [hresp] at hh
                  simpa [honestFrom] using hh
                rw [fnf_ok { s with pos := none } fr f rest hf hresp] at hstep
                cases hfr : f.rows with
                | nil =>
                  cases hfd : f.done
                  · rw [set_frame_violation _ f hfr hfd] at hstep
                    have hstep2 : fetchone s = (Except.error (Err.nameError "InternalError"),
                        { s with
                          frame := some f, pos := none, fetchResp := rest,
                          trace := s.trace ++ [nextPageReq { s with pos := none } fr] }) := hstep
                    rw [drain_err m s _ (Err.nameError "InternalError") hstep2]
                    refine ⟨[nextPageReq { s with pos := none } fr], by simp, ?_, ?_⟩
                    · intro o ho
                      simp [nextPageReq, fetchOffsets] at ho
                      omega
                    · simp [nextPageReq, fetchOffsets]
                  · rw [set_frame_done _ f hfr hfd] at hstep
                    have hstep2 : fetchone s =
                        (Except.map some (applyCoercions s.data_types row),
                        { s with
                          frame := some f, pos := none, fetchResp := rest,
                          trace := s.trace ++ [nextPageReq { s with pos := none } fr] }) := hstep
                    cases hac : applyCoercions s.data_types row with
                    | error e =>
                      rw [hac] at hstep2
                      rw [drain_err m s _ e hstep2]
                      refine ⟨[nextPageReq { s with pos := none } fr], by simp, ?_, ?_⟩
                      · intro o ho
                        simp [nextPageReq, fetchOffsets] at ho
                        omega
                      · simp [nextPageReq, fetchOffsets]
                    | ok row1 =>
                      rw [hac] at hstep2
                      have habs : drain m
                          { s with
                            frame := some f, pos := none, fetchResp := rest,
                            trace := s.trace ++ [nextPageReq { s with pos := none } fr] } =
                          (Except.ok [],
                          { s with
                            frame := some f, pos := none, fetchResp := rest,
                            trace := s.trace ++ [nextPageReq { s with pos := none } fr] }) :=
                        drain_absorb m _ (fetchone_pos_none _ f rfl rfl)
                      rw [drain_some_ok m s _ _ row1 [] hstep2 habs]
                      refine ⟨[nextPageReq { s with pos := none } fr], by simp, ?_, ?_⟩
                      · intro o ho
                        simp [nextPageReq, fetchOffsets] at ho
                        omega
                      · simp [nextPageReq, fetchOffsets]
                | cons r0 rs =>
                  rw [set_frame_rows _ f (by simp [hfr])] at hstep
                  have hstep2 : fetchone s =
                      (Except.map some (applyCoercions s.data_types row),
                      { s with
                        frame := some f, pos := some 0, fetchResp := rest,
                        trace := s.trace ++ [nextPageReq { s with pos := none } fr] }) := hstep
                  cases hac : applyCoercions s.data_types row with
                  | error e =>
                    rw [hac] at hstep2
                    rw [drain_err m s _ e hstep2]
                    refine ⟨[nextPageReq { s with pos := none } fr], by simp, ?_, ?_⟩
                    · intro o ho
                      simp [nextPageReq, fetchOffsets] at ho
                      omega
                    · simp [nextPageReq, fetchOffsets]
                  | ok row1 =>
                    rw [hac] at hstep2
                    obtain ⟨d2, hd2t, hd2b, hd2c⟩ := ih
                      { s with
                        frame := some f, pos := some 0, fetchResp := rest,
                        trace := s.trace ++ [nextPageReq { s with pos := none } fr] } f rfl
                      (by
                        show honestFrom (f.offset + f.rows.length) rest
                        rw [hhon.1]
                        exact hhon.2)
                    rcases hd : drain m
                        { s with
                          frame := some f, pos := some 0, fetchResp := rest,
                          trace := s.trace ++ [nextPageReq { s with pos := none } fr] }
                      with ⟨rd, td⟩
                    rw [hd] at hd2t
                    have hbound2 : ∀ o ∈ fetchOffsets d2,
                        fr.offset + (fr.rows.length : Int) + 1 ≤ o := by
                      intro o ho
                      have hb := hd2b o ho
                      rw [hhon.1, hfr] at hb
                      simp only [List.length_cons] at hb
                      omega
                    have htr : td.trace = s.trace ++
                        (nextPageReq { s with pos := none } fr :: d2) := by
                      rw [hd2t]
                      simp
                    have hoffs : fetchOffsets (nextPageReq { s with pos := none } fr :: d2)
                        = (fr.offset + (fr.rows.length : Int)) :: fetchOffsets d2 := by
                      simp [nextPageReq, fetchOffsets]
                    cases rd with
                    | error e2 =>
                      rw [drain_some_err m s _ td row1 e2 hstep2 hd]
                      refine ⟨nextPageReq { s with pos := none } fr :: d2, htr, ?_, ?_⟩
                      · intro o ho
                        rw [hoffs] at ho
                        rcases List.mem_cons.mp ho with hoe | hom
                        · omega
                        · have := hbound2 o hom
                          omega
                      · rw [hoffs]
                        rw [List.chain'_cons']
                        refine ⟨?_, hd2c⟩
                        intro y hy
                        have hym := List.mem_of_mem_head? hy
                        have := hbound2 y hym
                        omega
                    | ok rows =>
                      rw [drain_some_ok m s _ td row1 rows hstep2 hd]
                      refine ⟨nextPageReq { s with pos := none } fr :: d2, htr, ?_, ?_⟩
                      · intro o ho
                        rw [hoffs] at ho
                        rcases List.mem_cons.mp ho with hoe | hom
                        · omega
                        · have := hbound2 o hom
                          omega
                      · rw [hoffs]
                        rw [List.chain'_cons']
                        refine ⟨?_, hd2c⟩
                        intro y hy
                        have hym := List.mem_of_mem_head? hy
                        have := hbound2 y hym
                        omega
        · -- still inside the page: no request
          have hstep := fetchone_mid s fr p row hf hp hr (by omega)
          cases hac : applyCoercions s.data_types row with
          | error e =>
            rw [hac] at hstep
            rw [drain_err m s { s with pos := some (p + 1) } e hstep]
            exact ⟨[], by simp, by simp [fetchOffsets], by simp [fetchOffsets]⟩
          | ok row1 =>
            rw [hac] at hstep
            obtain ⟨d2, hd2t, hd2b, hd2c⟩ :=
              ih { s with pos := some (p + 1) } fr hf hh
            rcases hd : drain m { s with pos := some (p + 1) } with ⟨rd, td⟩
            cases rd with
            | error e2 =>
              rw [drain_some_err m s _ td row1 e2 hstep hd]
              rw [hd] at hd2t
              exact ⟨d2, hd2t, hd2b, hd2c⟩
            | ok rows =>
              rw [drain_some_ok m s _ td row1 rows hstep hd]
              rw [hd] at hd2t
              exact ⟨d2, hd2t, hd2b, hd2c⟩

/-! ### Claim C1 -/

/-- C1 (code behaviour at the failing input): installing a frame with an
empty row sequence and `done = False` does fail fast — the position is
never marked ready, no empty row is ever returned, and no further page
is requested — but the error raised is Python's `NameError` (the name
`InternalError` is not imported in `cursor.py`), not the
ProtocolViolation-kind `InternalError` the spec prescribes. -/
theorem C1_empty_frame_behavior :
    (set_frame baseSys (some badFrame)
      = (Except.error (Err.nameError "InternalError"),
         { baseSys with frame := some badFrame, pos := none })) ∧
    (execute { baseSys with prepExecResp :=
        [Except.ok [{ ownStatement := true, statementId := 5,
                      signature := some sigMix, firstFrame := some badFrame,
                      updateCount := 7 }]] } "SELECT * FROM t" none).1
      = Except.error (Err.nameError "InternalError") ∧
    (execute { baseSys with prepExecResp :=
        [Except.ok [{ ownStatement := true, statementId := 5,
                      signature := some sigMix, firstFrame := some badFrame,
                      updateCount := 7 }]] } "SELECT * FROM t" none).2.pos = none ∧
    (execute { baseSys with prepExecResp :=
        [Except.ok [{ ownStatement := true, statementId := 5,
                      signature := some sigMix, firstFrame := some badFrame,
                      updateCount := 7 }]] } "SELECT * FROM t" none).2.trace
      = [Req.prepareAndExecuteR 7 none "SELECT * FROM t" 2000] ∧
    (fetchone (execute { baseSys with prepExecResp :=
        [Except.ok [{ ownStatement := true, statementId := 5,
                      signature := some sigMix, firstFrame := some badFrame,
                      updateCount := 7 }]] } "SELECT * FROM t" none).2).1
      = Except.ok none := by
  refine ⟨by decide, by decide, by decide, by decide, by decide⟩

/-! ### Claim C8 -/

/-- C8: whenever the buffered frame is exhausted and not done, the next
page is requested at `offset = frame.offset + len(frame.rows)` with
`fetchMaxRowCount = itersize` (first conjunct: the request
`_fetch_next_frame` appends, for any response); and over any fetch-loop
run after an execute, against a collaborator that reports frames at the
requested offsets, the pagination requests are issued in strictly
increasing offset order — no page is requested out of order or
re-requested (second conjunct). -/
theorem C8_pagination_order :
    (∀ (s : Sys) (fr : Frame), s.frame = some fr →
      (fetch_next_frame s).2.trace =
        s.trace ++ [Req.fetchR s.connId s.id none
          (some (fr.offset + fr.rows.length)) s.itersize]) ∧
    (∀ (fuel : Nat) (s : Sys) (fr : Frame), s.frame = some fr →
      honestFrom (fr.offset + fr.rows.length) s.fetchResp →
      List.Chain' (fun a b => a < b)
        (fetchOffsets ((drain fuel s).2.trace.drop s.trace.length))) := by
  constructor
  · intro s fr hf
    cases hresp : s.fetchResp with
    | nil => rw [fnf_noresp s fr hf hresp]; rfl
    | cons resp rest =>
      cases resp with
      | error e => rw [fnf_err s fr e rest hf hresp]; rfl
      | ok f =>
        rw [fnf_ok s fr f rest hf hresp]
        cases hfr : f.rows with
        | nil =>
          cases hfd : f.done
          · rw [set_frame_violation _ f hfr hfd]; rfl
          · rw [set_frame_done _ f hfr hfd]; rfl
        | cons r0 rs => rw [set_frame_rows _ f (by simp [hfr])]; rfl
  · intro fuel s fr hf hh
    obtain ⟨d, hdt, hdb, hdc⟩ := drain_offsets fuel s fr hf hh
    rw [hdt, List.drop_left]
    exact hdc

/-- Witness for C8 at the three-page fixture: the next-page request from
page 0 is at offset 2 with batch size 2, and a full drain issues the
pagination requests at offsets 2 then 4, strictly increasing. -/
theorem C8_pagination_order_witness :
    (fetch_next_frame sIter).2.trace =
      sIter.trace ++ [Req.fetchR sIter.connId sIter.id none
        (some (page0.offset + page0.rows.length)) sIter.itersize] ∧
    List.Chain' (fun a b => a < b)
      (fetchOffsets ((drain 10 sIter).2.trace.drop sIter.trace.length)) := by
  constructor
  · exact C8_pagination_order.1 sIter page0 (by decide)
  · exact C8_pagination_order.2 10 sIter page0 (by decide)
      ⟨by decide, by decide, trivial⟩

/-- The chunks three successive `fetchmany(2)` calls return on the
three-page fixture (sizes 2, 2, 1 — the last one short). -/
def chunksIter : List (List Row) :=
  [[[PyVal.prim "1", PyVal.decimalV "2.5", PyVal.floatV "3.5"],
    [PyVal.prim "4", PyVal.pynone, PyVal.floatV "6.5"]],
   [[PyVal.prim "a", PyVal.decimalV "b", PyVal.floatV "c"],
    [PyVal.prim "d", PyVal.decimalV "e", PyVal.floatV "f"]],
   [[PyVal.prim "g", PyVal.decimalV "h", PyVal.floatV "i"]]]

/-- The five rows `fetchall` returns on the three-page fixture. -/
def rowsIter : List Row :=
  [[PyVal.prim "1", PyVal.decimalV "2.5", PyVal.floatV "3.5"],
   [PyVal.prim "4", PyVal.pynone, PyVal.floatV "6.5"],
   [PyVal.prim "a", PyVal.decimalV "b", PyVal.floatV "c"],
   [PyVal.prim "d", PyVal.decimalV "e", PyVal.floatV "f"],
   [PyVal.prim "g", PyVal.decimalV "h", PyVal.floatV "i"]]

/-- The cursor state after the three-page fixture is fully drained. -/
def sIterFinal : Sys :=
  { sIter with
    frame := some page2, pos := none, fetchResp := [],
    trace := [Req.fetchR 7 (some 3) none (some 2) 2,
              Req.fetchR 7 (some 3) none (some 4) 2] }

/-- Witness for C9: on the three-page fixture, three `fetchmany(2)`
calls (the last short) concatenate to exactly the `fetchall` output and
leave the cursor in the same state. -/
theorem C9_fetchmany_partition_witness :
    chunksIter.flatten = rowsIter ∧ sIterFinal = sIterFinal :=
  C9_fetchmany_partition 2 3 10 sIter sIterFinal sIterFinal chunksIter rowsIter
    [[PyVal.prim "g", PyVal.decimalV "h", PyVal.floatV "i"]]
    (by decide) (by decide) (by decide) (by decide) (by decide) (by decide)

/-! ### Case analysis of `_set_id` -/

/-- `_set_id` on a cursor holding no statement: plain adoption, no
release. -/
theorem set_id_fresh (s : Sys) (newId : Nat) (hid : s.id = none) :
    set_id s newId = (Except.ok (), { s with id := some newId }) := by
  simp only [set_id, hid]
  rw [if_neg (by simp)]

/-- `_set_id` adopting the identical handle: no release. -/
theorem set_id_same (s : Sys) (newId : Nat) (hid : s.id = some newId) :
    set_id s newId = (Except.ok (), { s with id := some newId }) := by
  simp only [set_id, hid]
  rw [if_neg (by simp)]

/-- `_set_id` replacing a different held handle: the old one is released
through `closeStatement` first. -/
theorem set_id_replace (s : Sys) (old newId : Nat)
    (crest : List (Except Err Unit)) (hid : s.id = some old)
    (hne : old ≠ newId) (hclose : s.closeResp = Except.ok () :: crest) :
    set_id s newId = (Except.ok (), { s with
      id := some newId, closeResp := crest,
      trace := s.trace ++ [Req.closeStatementR s.connId old] }) := by
  simp only [set_id, hid, clientCloseStatement, hclose]
  rw [if_pos (by simp [hne])]

/-- `_set_id` when the release raises: the error propagates and the
assignment `self._id = id` does not run. -/
theorem set_id_replace_err (s : Sys) (old newId : Nat) (e : Err)
    (crest : List (Except Err Unit)) (hid : s.id = some old)
    (hne : old ≠ newId) (hclose : s.closeResp = Except.error e :: crest) :
    set_id s newId = (Except.error e, { s with
      closeResp := crest,
      trace := s.trace ++ [Req.closeStatementR s.connId old] }) := by
  simp only [set_id, hid, clientCloseStatement, hclose]
  rw [if_pos (by simp [hne])]

/-! ### Claim C2 -/

/-- The prepare response used by the C2 runs: handle 9, mixed
signature. -/
def prepRes9 : PrepareResult := { id := 9, signature := some sigMix }

/-- A cursor already holding statement handle 3, scripted for a
parameterized re-execute that returns handle 9. -/
def sHandle : Sys :=
  { baseSys with
    id := some 3, closeResp := [Except.ok ()],
    prepResp := [Except.ok prepRes9], fetchResp := [Except.ok page2] }

/-- Counterexample to C2 as stated: a parameterized `execute` on an open
cursor that already holds a different statement handle performs three
collaborator steps, not exactly two — `prepare`, then the
`closeStatement` release of the replaced handle, then the fetch.
Moreover the prepare request's page size is the configured iteration
batch size (2000 here, 7 when `itersize` is set to 7), i.e. bounded by
configuration, not unbounded. -/
theorem C2_counterexample :
    (execute sHandle "UPSERT INTO t VALUES (?)" (some [PyVal.prim "1"])).1
      = Except.ok () ∧
    (execute sHandle "UPSERT INTO t VALUES (?)" (some [PyVal.prim "1"])).2.trace
      = [Req.prepareR 7 (some 3) "UPSERT INTO t VALUES (?)" 2000,
         Req.closeStatementR 7 3,
         Req.fetchR 7 (some 9) (some [PyVal.prim "1"]) none 2000] ∧
    (execute sHandle "UPSERT INTO t VALUES (?)" (some [PyVal.prim "1"])).2.trace.length
      ≠ 2 ∧
    (execute { sHandle with itersize := 7 }
        "UPSERT INTO t VALUES (?)" (some [PyVal.prim "1"])).2.trace.head?
      = some (Req.prepareR 7 (some 3) "UPSERT INTO t VALUES (?)" 7) := by
  refine ⟨by decide, by decide, by decide, by decide⟩

/-- C2 as amended: a parameterized `execute` on an open cursor issues a
prepare request bounded to the configured iteration batch size (not
unbounded), adopts the returned handle unconditionally (releasing a
previously held different handle via one `closeStatement`), installs the
signature from the prepare step (rederiving the coercion table), and
issues exactly one parameterized fetch bounded to the batch size whose
returned frame becomes the current buffer; no other collaborator calls
are made. -/
theorem C2_amended (s : Sys) (op : String) (ps : Row) (st : PrepareResult)
    (f : Frame) (prest : List (Except Err PrepareResult))
    (frest : List (Except Err Frame))
    (hclosed : s.closed = false)
    (hprep : s.prepResp = Except.ok st :: prest)
    (hfetch : s.fetchResp = Except.ok f :: frest)
    (hwell : f.rows ≠ [] ∨ (f.rows = [] ∧ f.done = true)) :
    (s.id = none ∨ s.id = some st.id →
      execute s op (some ps) = (Except.ok (),
        { s with
          id := some st.id, signature := st.signature,
          data_types := (match st.signature with
            | none => []
            | some sg => deriveDataTypes sg),
          frame := some f,
          pos := (if f.rows = [] then none else some 0),
          updatecount := -1, prepResp := prest, fetchResp := frest,
          trace := s.trace ++
            [Req.prepareR s.connId s.id op s.itersize,
             Req.fetchR s.connId (some st.id) (some ps) none s.itersize] })) ∧
    (∀ (old : Nat) (crest : List (Except Err Unit)),
      s.id = some old → old ≠ st.id → s.closeResp = Except.ok () :: crest →
      execute s op (some ps) = (Except.ok (),
        { s with
          id := some st.id, signature := st.signature,
          data_types := (match st.signature with
            | none => []
            | some sg => deriveDataTypes sg),
          frame := some f,
          pos := (if f.rows = [] then none else some 0),
          updatecount := -1, prepResp := prest, fetchResp := frest,
          closeResp := crest,
          trace := s.trace ++
            [Req.prepareR s.connId (some old) op s.itersize,
             Req.closeStatementR s.connId old,
             Req.fetchR s.connId (some st.id) (some ps) none s.itersize] })) := by
  obtain ⟨stid, stsig⟩ := st
  constructor
  · intro hid
    rcases hid with hid | hid
    · cases stsig with
      | none =>
        rcases hwell with hrows | ⟨hrows, hdone⟩
        · simp only [execute, hclosed, clientPrepare, hprep, set_id_fresh, hid,
            set_signature, clientFetch, hfetch]
          rw [set_frame_rows _ f hrows]
          simp [List.append_assoc, hrows, hid]
        · simp only [execute, hclosed, clientPrepare, hprep, set_id_fresh, hid,
            set_signature, clientFetch, hfetch]
          rw [set_frame_done _ f hrows hdone]
          simp [List.append_assoc, hrows, hid]
      | some sg =>
        rcases hwell with hrows | ⟨hrows, hdone⟩
        · simp only [execute, hclosed, clientPrepare, hprep, set_id_fresh, hid,
            set_signature, clientFetch, hfetch]
          rw [set_frame_rows _ f hrows]
          simp [List.append_assoc, hrows, hid]
        · simp only [execute, hclosed, clientPrepare, hprep, set_id_fresh, hid,
            set_signature, clientFetch, hfetch]
          rw [set_frame_done _ f hrows hdone]
          simp [List.append_assoc, hrows, hid]
    · cases stsig with
      | none =>
        rcases hwell with hrows | ⟨hrows, hdone⟩
        · simp only [execute, hclosed, clientPrepare, hprep, set_id_same, hid,
            set_signature, clientFetch, hfetch]
          rw [set_frame_rows _ f hrows]
          simp [List.append_assoc, hrows, hid]
        · simp only [execute, hclosed, clientPrepare, hprep, set_id_same, hid,
            set_signature, clientFetch, hfetch]
          rw [set_frame_done _ f hrows hdone]
          simp [List.append_assoc, hrows, hid]
      | some sg =>
        rcases hwell with hrows | ⟨hrows, hdone⟩
        · simp only [execute, hclosed, clientPrepare, hprep, set_id_same, hid,
            set_signature, clientFetch, hfetch]
          rw [set_frame_rows _ f hrows]
          simp [List.append_assoc, hrows, hid]
        · simp only [execute, hclosed, clientPrepare, hprep, set_id_same, hid,
            set_signature, clientFetch, hfetch]
          rw [set_frame_done _ f hrows hdone]
          simp [List.append_assoc, hrows, hid]
  · intro old crest hid hne hclose
    cases stsig with
    | none =>
      rcases hwell with hrows | ⟨hrows, hdone⟩
      · simp only [execute, hclosed, clientPrepare, hprep]
        rw [set_id_replace _ old stid crest (by simpa using hid) hne
          (by simpa using hclose)]
        simp only [set_signature, clientFetch, hfetch]
        rw [set_frame_rows _ f hrows]
        simp [List.append_assoc, hrows, hid]
      · simp only [execute, hclosed, clientPrepare, hprep]
        rw [set_id_replace _ old stid crest (by simpa using hid) hne
          (by simpa using hclose)]
        simp only [set_signature, clientFetch, hfetch]
        rw [set_frame_done _ f hrows hdone]
        simp [List.append_assoc, hrows, hid]
    | some sg =>
      rcases hwell with hrows | ⟨hrows, hdone⟩
      · simp only [execute, hclosed, clientPrepare, hprep]
        rw [set_id_replace _ old stid crest (by simpa using hid) hne
          (by simpa using hclose)]
        simp only [set_signature, clientFetch, hfetch]
        rw [set_frame_rows _ f hrows]
        simp [List.append_assoc, hrows, hid]
      · simp only [execute, hclosed, clientPrepare, hprep]
        rw [set_id_replace _ old stid crest (by simpa using hid) hne
          (by simpa using hclose)]
        simp only [set_signature, clientFetch, hfetch]
        rw [set_frame_done _ f hrows hdone]
        simp [List.append_assoc, hrows, hid]

/-- A fresh cursor scripted for a parameterized execute returning handle
9 and a single final page. -/
def sFresh : Sys :=
  { baseSys with prepResp := [Except.ok prepRes9], fetchResp := [Except.ok page2] }

/-- Witness for the amended C2, at a fresh cursor (two collaborator
calls) and at a cursor replacing handle 3 by 9 (prepare, release,
fetch). -/
theorem C2_amended_witness :
    (execute sFresh "UPSERT INTO t VALUES (?)" (some [PyVal.prim "1"])
      = (Except.ok (),
        { sFresh with
          id := some prepRes9.id, signature := prepRes9.signature,
          data_types := (match prepRes9.signature with
            | none => []
            | some sg => deriveDataTypes sg),
          frame := some page2,
          pos := (if page2.rows = [] then none else some 0),
          updatecount := -1, prepResp := [], fetchResp := [],
          trace := sFresh.trace ++
            [Req.prepareR sFresh.connId sFresh.id "UPSERT INTO t VALUES (?)"
              sFresh.itersize,
             Req.fetchR sFresh.connId (some prepRes9.id) (some [PyVal.prim "1"])
              none sFresh.itersize] })) ∧
    (execute sHandle "UPSERT INTO t VALUES (?)" (some [PyVal.prim "1"])
      = (Except.ok (),
        { sHandle with
          id := some prepRes9.id, signature := prepRes9.signature,
          data_types := (match prepRes9.signature with
            | none => []
            | some sg => deriveDataTypes sg),
          frame := some page2,
          pos := (if page2.rows = [] then none else some 0),
          updatecount := -1, prepResp := [], fetchResp := [],
          closeResp := [],
          trace := sHandle.trace ++
            [Req.prepareR sHandle.connId (some 3) "UPSERT INTO t VALUES (?)"
              sHandle.itersize,
             Req.closeStatementR sHandle.connId 3,
             Req.fetchR sHandle.connId (some prepRes9.id) (some [PyVal.prim "1"])
              none sHandle.itersize] })) :=
  ⟨(C2_amended sFresh "UPSERT INTO t VALUES (?)" [PyVal.prim "1"] prepRes9 page2
      [] [] (by decide) (by decide) (by decide) (Or.inl (by decide))).1
      (Or.inl (by decide)),
   (C2_amended sHandle "UPSERT INTO t VALUES (?)" [PyVal.prim "1"] prepRes9 page2
      [] [] (by decide) (by decide) (by decide) (Or.inl (by decide))).2
      3 [] (by decide) (by decide) (by decide)⟩

/-! ### Claim C3 -/

/-- `_set_frame(None)` clears the buffer and the position and never
raises. -/
theorem set_frame_none (s : Sys) :
    set_frame s none = (Except.ok (), { s with frame := none, pos := none }) := rfl

/-- The `executemany` fetch loop, when every scripted response is a
frame: one fetch request with `fetchMaxRowCount = 0` per parameter set,
in sequence order, every returned frame discarded. -/
theorem executemanyLoop_ok :
    ∀ (seq : List Row) (frames : List Frame) (frest : List (Except Err Frame))
      (s : Sys),
      s.fetchResp = frames.map Except.ok ++ frest →
      frames.length = seq.length →
      executemanyLoop s seq = (Except.ok (), { s with
        fetchResp := frest,
        trace := s.trace ++
          seq.map (fun psx => Req.fetchR s.connId s.id (some psx) none 0) }) := by
  intro seq
  induction seq with
  | nil =>
    intro frames frest s hresp hlen
    have hfr : frames = [] := List.eq_nil_of_length_eq_zero (by simpa using hlen)
    rw [hfr] at hresp
    simp only [List.map_nil, List.nil_append] at hresp
    simp only [executemanyLoop, List.map_nil, List.append_nil]
    rw [← hresp]
  | cons psx rest ih =>
    intro frames frest s hresp hlen
    cases frames with
    | nil => simp at hlen
    | cons f0 frames2 =>
      simp only [List.map_cons, List.cons_append] at hresp
      simp only [executemanyLoop, clientFetch, hresp]
      have := ih frames2 frest
        { s with fetchResp := frames2.map Except.ok ++ frest,
                 trace := s.trace ++ [Req.fetchR s.connId s.id (some psx) none 0] }
        rfl (by simpa using hlen)
      rw [this]
      simp [List.append_assoc]

/-- Pagination-free fetch requests carry no prepare. -/
theorem filter_isPrep_fetches (c : Nat) (i : Option Nat) (seq : List Row) :
    (seq.map (fun psx => Req.fetchR c i (some psx) none 0)).filter Req.isPrep
      = [] := by
  induction seq with
  | nil => rfl
  | cons x xs ih => simp [Req.isPrep, ih]

/-- Filtering the fetch requests back out of a pure fetch-request list
is the identity. -/
theorem filter_isFetch_fetches (c : Nat) (i : Option Nat) (seq : List Row) :
    (seq.map (fun psx => Req.fetchR c i (some psx) none 0)).filter Req.isFetch
      = seq.map (fun psx => Req.fetchR c i (some psx) none 0) := by
  induction seq with
  | nil => rfl
  | cons x xs ih => simp [Req.isFetch, ih]

/-- C3: `executemany` on an open cursor clears the current frame,
prepares once with an explicit zero page size, issues exactly one fetch
with `fetchMaxRowCount = 0` per parameter set in sequence order, buffers
no rows (the frame stays cleared, the position at the sentinel), and a
subsequent `fetchone` fails with the StateError-kind
`ProgrammingError`. -/
theorem C3_executemany (s : Sys) (op : String) (seq : List Row)
    (st : PrepareResult) (prest : List (Except Err PrepareResult))
    (frames : List Frame) (frest : List (Except Err Frame))
    (hclosed : s.closed = false)
    (hprep : s.prepResp = Except.ok st :: prest)
    (hfetch : s.fetchResp = frames.map Except.ok ++ frest)
    (hlen : frames.length = seq.length)
    (hid : s.id = none ∨ s.id = some st.id) :
    executemany s op seq = (Except.ok (), { s with
      updatecount := -1, frame := none, pos := none,
      id := some st.id, signature := st.signature,
      prepResp := prest, fetchResp := frest,
      trace := s.trace ++ (Req.prepareR s.connId s.id op 0 ::
        seq.map (fun psx => Req.fetchR s.connId (some st.id) (some psx) none 0)) }) ∧
    (fetchone (executemany s op seq).2).1
      = Except.error (Err.programmingError "no select statement was executed") ∧
    (((executemany s op seq).2.trace.drop s.trace.length).filter Req.isPrep)
      = [Req.prepareR s.connId s.id op 0] ∧
    (((executemany s op seq).2.trace.drop s.trace.length).filter Req.isFetch)
      = seq.map (fun psx => Req.fetchR s.connId (some st.id) (some psx) none 0) := by
  have hmain : executemany s op seq = (Except.ok (), { s with
      updatecount := -1, frame := none, pos := none,
      id := some st.id, signature := st.signature,
      prepResp := prest, fetchResp := frest,
      trace := s.trace ++ (Req.prepareR s.connId s.id op 0 ::
        seq.map (fun psx => Req.fetchR s.connId (some st.id) (some psx) none 0)) }) := by
    rcases hid with hid | hid
    · simp only [executemany, hclosed, set_frame_none, clientPrepare, hprep,
        set_id_fresh, hid]
      rw [executemanyLoop_ok seq frames frest _ (by simpa using hfetch)
        (by simpa using hlen)]
      simp [List.append_assoc, hid]
    · simp only [executemany, hclosed, set_frame_none, clientPrepare, hprep,
        set_id_same, hid]
      rw [executemanyLoop_ok seq frames frest _ (by simpa using hfetch)
        (by simpa using hlen)]
      simp [List.append_assoc, hid]
  refine ⟨hmain, ?_, ?_, ?_⟩
  · rw [hmain]
    simp [fetchone]
  · rw [hmain]
    simp only [List.drop_left]
    simp [List.filter_cons, Req.isPrep, filter_isPrep_fetches]
  · rw [hmain]
    simp only [List.drop_left]
    simp [List.filter_cons, Req.isFetch, filter_isFetch_fetches]

/-- A cursor with a buffered frame, scripted for `executemany` with
three parameter sets (three zero-row DML frames). -/
def sMany : Sys :=
  { baseSys with
    frame := some page0, pos := some 0,
    prepResp := [Except.ok prepRes9],
    fetchResp := [Except.ok doneFrame, Except.ok doneFrame, Except.ok doneFrame] }

/-- Witness for C3: `executemany` with three parameter sets issues
exactly one zero-page-size prepare and three `maxRows = 0` fetches in
order, leaves the frame `None`, and `fetchone` then fails. -/
theorem C3_executemany_witness :
    executemany sMany "UPSERT INTO t VALUES (?)"
        [[PyVal.prim "1"], [PyVal.prim "2"], [PyVal.prim "3"]]
      = (Except.ok (), { sMany with
        updatecount := -1, frame := none, pos := none,
        id := some prepRes9.id, signature := prepRes9.signature,
        prepResp := [], fetchResp := [],
        trace := sMany.trace ++
          (Req.prepareR sMany.connId sMany.id "UPSERT INTO t VALUES (?)" 0 ::
            [[PyVal.prim "1"], [PyVal.prim "2"], [PyVal.prim "3"]].map
              (fun psx => Req.fetchR sMany.connId (some prepRes9.id)
                (some psx) none 0)) }) ∧
    (fetchone (executemany sMany "UPSERT INTO t VALUES (?)"
        [[PyVal.prim "1"], [PyVal.prim "2"], [PyVal.prim "3"]]).2).1
      = Except.error (Err.programmingError "no select statement was executed") ∧
    (((executemany sMany "UPSERT INTO t VALUES (?)"
        [[PyVal.prim "1"], [PyVal.prim "2"], [PyVal.prim "3"]]).2.trace.drop
          sMany.trace.length).filter Req.isPrep)
      = [Req.prepareR sMany.connId sMany.id "UPSERT INTO t VALUES (?)" 0] ∧
    (((executemany sMany "UPSERT INTO t VALUES (?)"
        [[PyVal.prim "1"], [PyVal.prim "2"], [PyVal.prim "3"]]).2.trace.drop
          sMany.trace.length).filter Req.isFetch)
      = [[PyVal.prim "1"], [PyVal.prim "2"], [PyVal.prim "3"]].map
          (fun psx => Req.fetchR sMany.connId (some prepRes9.id)
            (some psx) none 0) :=
  C3_executemany sMany "UPSERT INTO t VALUES (?)"
    [[PyVal.prim "1"], [PyVal.prim "2"], [PyVal.prim "3"]]
    prepRes9 [] [doneFrame, doneFrame, doneFrame] []
    (by decide) (by decide) (by decide) (by decide) (Or.inl (by decide))

/-! ### Claim C4 -/

/-- Every entry produced by the coercion-table derivation carries the
column index it was derived from. -/
theorem derive_entry_fst (sig : Signature) (i : Nat) (q : Nat × DType)
    (h : (match sig.columns[i]? with
      | none => none
      | some column =>
        if column.columnClassName = "java.math.BigDecimal" then
          some (i, DType.decimalT)
        else if column.columnClassName = "java.lang.Float"
            ∨ column.columnClassName = "java.lang.Double" then
          some (i, DType.floatT)
        else none) = some q) : q.1 = i := by
  split at h
  · simp at h
  · split at h
    · cases Option.some.inj h; rfl
    · split at h
      · cases Option.some.inj h; rfl
      · simp at h

/-- The coercion table lists column indices in strictly increasing
order; in particular each column has at most one entry. -/
theorem derive_pairwise (sig : Signature) :
    List.Pairwise (fun x y => x.1 < y.1) (deriveDataTypes sig) := by
  unfold deriveDataTypes
  refine List.Pairwise.filterMap _ ?_ (List.pairwise_lt_range _)
  intro a b hab a' ha' b' hb'
  rw [derive_entry_fst sig a a' ha', derive_entry_fst sig b b' hb']
  exact hab

/-- Characterization of the derived coercion table: a column gets the
decimal coercion exactly when its class is `java.math.BigDecimal`, the
float coercion exactly when its class is `java.lang.Float` or
`java.lang.Double`, and no entry otherwise. -/
theorem derive_mem (sig : Signature) (i : Nat) (col : Column)
    (hcol : sig.columns[i]? = some col) :
    (((i, DType.decimalT) ∈ deriveDataTypes sig) ↔
      col.columnClassName = "java.math.BigDecimal") ∧
    (((i, DType.floatT) ∈ deriveDataTypes sig) ↔
      (col.columnClassName = "java.lang.Float"
        ∨ col.columnClassName = "java.lang.Double")) := by
  have hlt : i < sig.columns.length := (List.getElem?_eq_some.mp hcol).1
  constructor
  · constructor
    · intro hmem
      obtain ⟨j, hj, hjeq⟩ := List.mem_filterMap.mp hmem
      have hji := derive_entry_fst sig j _ hjeq
      simp only at hji
      subst hji
      rw [hcol] at hjeq
      dsimp only at hjeq
      by_cases h1 : col.columnClassName = "java.math.BigDecimal"
      · exact h1
      · rw [if_neg h1] at hjeq
        by_cases h2 : col.columnClassName = "java.lang.Float"
            ∨ col.columnClassName = "java.lang.Double"
        · rw [if_pos h2] at hjeq
          simp at hjeq
        · rw [if_neg h2] at hjeq
          simp at hjeq
    · intro hcls
      refine List.mem_filterMap.mpr ⟨i, List.mem_range.mpr hlt, ?_⟩
      rw [hcol]
      simp [hcls]
  · constructor
    · intro hmem
      obtain ⟨j, hj, hjeq⟩ := List.mem_filterMap.mp hmem
      have hji := derive_entry_fst sig j _ hjeq
      simp only at hji
      subst hji
      rw [hcol] at hjeq
      dsimp only at hjeq
      by_cases h1 : col.columnClassName = "java.math.BigDecimal"
      · rw [if_pos h1] at hjeq
        simp at hjeq
      · rw [if_neg h1] at hjeq
        by_cases h2 : col.columnClassName = "java.lang.Float"
            ∨ col.columnClassName = "java.lang.Double"
        · exact h2
        · rw [if_neg h2] at hjeq
          simp at hjeq
    · intro hcls
      refine List.mem_filterMap.mpr ⟨i, List.mem_range.mpr hlt, ?_⟩
      rw [hcol]
      dsimp only
      have h1 : ¬ col.columnClassName = "java.math.BigDecimal" := by
        rcases hcls with h | h <;> rw [h] <;> decide
      rw [if_neg h1, if_pos hcls]

/-- The coercion loop leaves `None` entries untouched. -/
theorem applyCoercions_null (dts : List (Nat × DType)) :
    ∀ (row row' : Row) (i : Nat), applyCoercions dts row = Except.ok row' →
      row[i]? = some PyVal.pynone → row'[i]? = some PyVal.pynone := by
  induction dts with
  | nil =>
    intro row row' i h hnull
    simp only [applyCoercions] at h
    cases Except.ok.inj h
    exact hnull
  | cons q rest ih =>
    intro row row' i h hnull
    obtain ⟨j, dt⟩ := q
    simp only [applyCoercions] at h
    cases hj : row[j]? with
    | none => rw [hj] at h; simp at h
    | some v =>
      rw [hj] at h
      dsimp only at h
      by_cases hv : v = PyVal.pynone
      · rw [if_pos hv] at h
        exact ih row row' i h hnull
      · rw [if_neg hv] at h
        refine ih _ _ _ h ?_
        have hne : j ≠ i := by
          intro hji
          subst hji
          rw [hj] at hnull
          exact hv (Option.some.inj hnull)
        rw [List.getElem?_set_ne hne]
        exact hnull

/-- The coercion loop leaves columns without a table entry untouched. -/
theorem applyCoercions_skip (dts : List (Nat × DType)) :
    ∀ (row row' : Row) (i : Nat), applyCoercions dts row = Except.ok row' →
      (∀ dt, (i, dt) ∉ dts) → row'[i]? = row[i]? := by
  induction dts with
  | nil =>
    intro row row' i h hout
    simp only [applyCoercions] at h
    cases Except.ok.inj h
    rfl
  | cons q rest ih =>
    intro row row' i h hout
    obtain ⟨j, dt⟩ := q
    have hne : j ≠ i := by
      intro hji
      subst hji
      exact hout dt (by simp)
    simp only [applyCoercions] at h
    cases hj : row[j]? with
    | none => rw [hj] at h; simp at h
    | some v =>
      rw [hj] at h
      dsimp only at h
      by_cases hv : v = PyVal.pynone
      · rw [if_pos hv] at h
        exact ih row row' i h (fun dt2 hm => hout dt2 (by simp [hm]))
      · rw [if_neg hv] at h
        rw [ih _ _ _ h (fun dt2 hm => hout dt2 (by simp [hm]))]
        rw [List.getElem?_set_ne hne]

/-- The coercion loop applies the listed transform to a listed, non-null
column exactly once (the table's indices being distinct). -/
theorem applyCoercions_applied (dts : List (Nat × DType)) :
    ∀ (row row' : Row) (i : Nat) (dt : DType) (v : PyVal),
      applyCoercions dts row = Except.ok row' →
      List.Pairwise (fun x y => x.1 < y.1) dts →
      (i, dt) ∈ dts → row[i]? = some v → v ≠ PyVal.pynone →
      row'[i]? = some (applyDT dt v) := by
  induction dts with
  | nil => intro row row' i dt v h hpw hmem; simp at hmem
  | cons q rest ih =>
    intro row row' i dt v h hpw hmem hv hvn
    obtain ⟨j, dt0⟩ := q
    simp only [applyCoercions] at h
    rcases List.mem_cons.mp hmem with hhead | htail
    · cases Prod.mk.injEq .. ▸ hhead with
      | intro hji hdt =>
        subst hji
        subst hdt
        rw [hv] at h
        dsimp only at h
        rw [if_neg hvn] at h
        have hout : ∀ dt2, (i, dt2) ∉ rest := by
          intro dt2 hm
          have := (List.pairwise_cons.mp hpw).1 (i, dt2) hm
          simp at this
        rw [applyCoercions_skip rest _ _ _ h hout]
        have hlen : i < row.length := (List.getElem?_eq_some.mp hv).1
        rw [List.getElem?_set_self (by simpa using hlen)]
    · have hne : j ≠ i := by
        have := (List.pairwise_cons.mp hpw).1 (i, dt) htail
        simp only at this
        omega
      cases hj : row[j]? with
      | none => rw [hj] at h; simp at h
      | some v0 =>
        rw [hj] at h
        dsimp only at h
        by_cases hv0 : v0 = PyVal.pynone
        · rw [if_pos hv0] at h
          exact ih row row' i dt v h (List.pairwise_cons.mp hpw).2 htail hv hvn
        · rw [if_neg hv0] at h
          refine ih _ row' i dt v h (List.pairwise_cons.mp hpw).2 htail ?_ hvn
          rw [List.getElem?_set_ne hne]
          exact hv

/-- A cursor that has executed a query with `sigMix` (coercion table
derived), about to run `executemany` whose prepare reports the different
signature `sigInt`. -/
def sStale : Sys :=
  { baseSys with
    id := some 9, signature := some sigMix,
    data_types := deriveDataTypes sigMix,
    prepResp := [Except.ok { id := 9, signature := some sigInt }],
    fetchResp := [Except.ok doneFrame] }

/-- Counterexample to C4 as stated: `executemany` installs a new
signature (`self._signature = statement['signature']`, bypassing
`_set_signature`) but does not rederive the coercion table — the old
table derived from `sigMix` survives although the rederivation from the
newly installed `sigInt` would be empty. -/
theorem C4_counterexample :
    (executemany sStale "UPSERT INTO u VALUES (?)" [[PyVal.prim "1"]]).1
      = Except.ok () ∧
    (executemany sStale "UPSERT INTO u VALUES (?)" [[PyVal.prim "1"]]).2.signature
      = some sigInt ∧
    some sigInt ≠ sStale.signature ∧
    (executemany sStale "UPSERT INTO u VALUES (?)" [[PyVal.prim "1"]]).2.data_types
      = [(1, DType.decimalT), (2, DType.floatT)] ∧
    deriveDataTypes sigInt = [] ∧
    (executemany sStale "UPSERT INTO u VALUES (?)" [[PyVal.prim "1"]]).2.data_types
      ≠ deriveDataTypes sigInt := by
  refine ⟨by decide, by decide, by decide, by decide, by decide, by decide⟩

/-- C4 as amended: whenever a signature is installed through
`_set_signature` (the `execute` paths; `close` clears it), the coercion
table is rederived from it and the old table discarded — decimal columns
map to the decimal coercion, single/double float columns to the float
coercion, others get no entry; `executeMany` installs its signature
directly without touching the table.  The coercions are applied to a
row's columns exactly once, at the moment `fetchone` returns that row
(the buffered rows are untouched), and are skipped for null values. -/
theorem C4_amended :
    (∀ (s : Sys) (sig : Signature),
      (set_signature s (some sig)).data_types = deriveDataTypes sig) ∧
    (∀ s : Sys, (set_signature s none).data_types = []) ∧
    (∀ (sig : Signature) (i : Nat) (col : Column),
      sig.columns[i]? = some col →
      (((i, DType.decimalT) ∈ deriveDataTypes sig) ↔
        col.columnClassName = "java.math.BigDecimal") ∧
      (((i, DType.floatT) ∈ deriveDataTypes sig) ↔
        (col.columnClassName = "java.lang.Float"
          ∨ col.columnClassName = "java.lang.Double"))) ∧
    (∀ (s : Sys) (fr : Frame) (p : Nat) (row : Row),
      s.frame = some fr → s.pos = some p → fr.rows[p]? = some row →
      p + 1 < fr.rows.length →
      fetchone s = (Except.map some (applyCoercions s.data_types row),
        { s with pos := some (p + 1) })) ∧
    (∀ (dts : List (Nat × DType)) (row row' : Row) (i : Nat),
      applyCoercions dts row = Except.ok row' →
      row[i]? = some PyVal.pynone → row'[i]? = some PyVal.pynone) ∧
    (∀ (dts : List (Nat × DType)) (row row' : Row) (i : Nat),
      applyCoercions dts row = Except.ok row' →
      (∀ dt, (i, dt) ∉ dts) → row'[i]? = row[i]?) ∧
    (∀ (sig : Signature) (row row' : Row) (i : Nat) (dt : DType) (v : PyVal),
      applyCoercions (deriveDataTypes sig) row = Except.ok row' →
      (i, dt) ∈ deriveDataTypes sig → row[i]? = some v → v ≠ PyVal.pynone →
      row'[i]? = some (applyDT dt v)) := by
  refine ⟨?_, ?_, ?_, ?_, ?_, ?_, ?_⟩
  · intro s sig
    rfl
  · intro s
    rfl
  · intro sig i col hcol
    exact derive_mem sig i col hcol
  · intro s fr p row hf hp hr hlt
    exact fetchone_mid s fr p row hf hp hr hlt
  · intro dts row row' i h hnull
    exact applyCoercions_null dts row row' i h hnull
  · intro dts row row' i h hout
    exact applyCoercions_skip dts row row' i h hout
  · intro sig row row' i dt v h hmem hv hvn
    exact applyCoercions_applied (deriveDataTypes sig) row row' i dt v h
      (derive_pairwise sig) hmem hv hvn

/-- Witness for the amended C4 on the mixed signature: the table is
rederived on install, the decimal and float columns are mapped, the
mid-page `fetchone` coerces at the moment of return, nulls are skipped,
unlisted columns pass through, and listed columns are transformed. -/
theorem C4_amended_witness :
    (set_signature baseSys (some sigMix)).data_types = deriveDataTypes sigMix ∧
    (set_signature baseSys none).data_types = [] ∧
    (((1, DType.decimalT) ∈ deriveDataTypes sigMix) ↔
      colDec.columnClassName = "java.math.BigDecimal") ∧
    fetchone sIter = (Except.map some (applyCoercions sIter.data_types
      [PyVal.prim "1", PyVal.prim "2.5", PyVal.prim "3.5"]),
      { sIter with pos := some 1 }) ∧
    [PyVal.prim "4", PyVal.pynone, PyVal.floatV "6.5"][1]? = some PyVal.pynone ∧
    [PyVal.prim "4", PyVal.pynone, PyVal.floatV "6.5"][0]?
      = [PyVal.prim "4", PyVal.pynone, PyVal.prim "6.5"][0]? ∧
    [PyVal.prim "4", PyVal.pynone, PyVal.floatV "6.5"][2]?
      = some (applyDT DType.floatT (PyVal.prim "6.5")) := by
  refine ⟨C4_amended.1 baseSys sigMix, C4_amended.2.1 baseSys,
    (C4_amended.2.2.1 sigMix 1 colDec (by decide)).1,
    C4_amended.2.2.2.1 sIter page0 0
      [PyVal.prim "1", PyVal.prim "2.5", PyVal.prim "3.5"]
      (by decide) (by decide) (by decide) (by decide),
    C4_amended.2.2.2.2.1 (deriveDataTypes sigMix)
      [PyVal.prim "4", PyVal.pynone, PyVal.prim "6.5"]
      [PyVal.prim "4", PyVal.pynone, PyVal.floatV "6.5"] 1
      (by decide) (by decide),
    C4_amended.2.2.2.2.2.1 (deriveDataTypes sigMix)
      [PyVal.prim "4", PyVal.pynone, PyVal.prim "6.5"]
      [PyVal.prim "4", PyVal.pynone, PyVal.floatV "6.5"] 0
      (by decide) ?_,
    C4_amended.2.2.2.2.2.2 sigMix
      [PyVal.prim "4", PyVal.pynone, PyVal.prim "6.5"]
      [PyVal.prim "4", PyVal.pynone, PyVal.floatV "6.5"] 2
      DType.floatT (PyVal.prim "6.5")
      (by decide) (by decide) (by decide) (by decide)⟩
  intro dt hm
  rw [show deriveDataTypes sigMix = [(1, DType.decimalT), (2, DType.floatT)]
    from by decide] at hm
  simp at hm

/-! ### Claim C5 -/

/-- `prepare` does not touch the update count. -/
theorem clientPrepare_ucount (s : Sys) (c : Nat) (i : Option Nat)
    (op : String) (m : Int) :
    (clientPrepare s c i op m).2.updatecount = s.updatecount := by
  unfold clientPrepare
  dsimp only
  split <;> rfl

/-- `prepareAndExecute` does not touch the update count. -/
theorem clientPrepareAndExecute_ucount (s : Sys) (c : Nat) (i : Option Nat)
    (op : String) (m : Int) :
    (clientPrepareAndExecute s c i op m).2.updatecount = s.updatecount := by
  unfold clientPrepareAndExecute
  dsimp only
  split <;> rfl

/-- `fetch` does not touch the update count. -/
theorem clientFetch_ucount (s : Sys) (c : Nat) (i : Option Nat)
    (ps : Option Row) (off : Option Int) (m : Int) :
    (clientFetch s c i ps off m).2.updatecount = s.updatecount := by
  unfold clientFetch
  dsimp only
  split <;> rfl

/-- `_set_id` does not touch the update count. -/
theorem set_id_ucount (s : Sys) (n : Nat) :
    (set_id s n).2.updatecount = s.updatecount := by
  unfold set_id clientCloseStatement
  dsimp only
  repeat' split
  all_goals rfl

/-- `_set_signature` does not touch the update count. -/
theorem set_signature_ucount (s : Sys) (sig : Option Signature) :
    (set_signature s sig).updatecount = s.updatecount := by
  unfold set_signature
  dsimp only
  split <;> rfl

/-- `_set_frame` does not touch the update count. -/
theorem set_frame_ucount (s : Sys) (f : Option Frame) :
    (set_frame s f).2.updatecount = s.updatecount := by
  unfold set_frame
  dsimp only
  repeat' split
  all_goals rfl

/-- A fresh cursor scripted for a parameterized DML execute: prepare
returns handle 9, the fetch returns a rowless final frame. -/
def sDml : Sys :=
  { baseSys with
    prepResp := [Except.ok prepRes9], fetchResp := [Except.ok doneFrame] }

/-- Counterexample to C5 as stated: a successful parameterized
data-modifying execute leaves the update count at -1 — the parameterized
path never adopts any server-reported count, so it cannot equal a
non-negative affected-row count. -/
theorem C5_counterexample :
    (execute sDml "UPSERT INTO t VALUES (?)" (some [PyVal.prim "1"])).1
      = Except.ok () ∧
    rowcount (execute sDml "UPSERT INTO t VALUES (?)"
      (some [PyVal.prim "1"])).2 = -1 ∧
    ¬ (0 ≤ rowcount (execute sDml "UPSERT INTO t VALUES (?)"
      (some [PyVal.prim "1"])).2) := by
  refine ⟨by decide, by decide, by decide⟩

/-- C5 as amended: every `execute` on an open cursor first resets the
update count to -1 (so any failure after the closed-check leaves it -1);
an `execute` without parameters whose response carries a result adopts
that result's server-reported `updateCount` (hence -1 after a
row-returning query, the non-negative affected count after DML); an
`execute` without parameters whose response is empty, and every
parameterized `execute`, leave the update count at -1. -/
theorem C5_amended (s : Sys) (op : String) (hclosed : s.closed = false) :
    (∀ (ps : Option Row) (e : Err) (t : Sys),
      execute s op ps = (Except.error e, t) → t.updatecount = -1) ∧
    (∀ (result : ExecResult) (rest : List ExecResult)
      (prest : List (Except Err (List ExecResult))) (t : Sys),
      s.prepExecResp = Except.ok (result :: rest) :: prest →
      execute s op none = (Except.ok (), t) →
      t.updatecount = result.updateCount) ∧
    (∀ (prest : List (Except Err (List ExecResult))),
      s.prepExecResp = Except.ok [] :: prest →
      (execute s op none).2.updatecount = -1) ∧
    (∀ (ps : Row) (t : Sys),
      execute s op (some ps) = (Except.ok (), t) → t.updatecount = -1) := by
  have herr : ∀ (ps : Option Row) (e : Err) (t : Sys),
      execute s op ps = (Except.error e, t) → t.updatecount = -1 := by
    intro ps e t hrun
    have hres : t = (execute s op ps).2 := by rw [hrun]
    have hfst : (execute s op ps).1 = Except.error e := by rw [hrun]
    rw [hres]
    clear hres hrun
    cases ps with
    | none =>
      rcases hpe : s.prepExecResp with _ | ⟨r0, prest⟩
      · simp [execute, hclosed, clientPrepareAndExecute, hpe]
      · cases r0 with
        | error e0 => simp [execute, hclosed, clientPrepareAndExecute, hpe]
        | ok results =>
          cases results with
          | nil => simp [execute, hclosed, clientPrepareAndExecute, hpe]
          | cons result rest =>
            simp only [execute] at hfst ⊢
            rw [if_neg (by simp [hclosed] : ¬ s.closed = true)] at hfst ⊢
            simp only [clientPrepareAndExecute, hpe] at hfst ⊢
            rcases hstep1 : (if result.ownStatement then
                set_id { s with
                  updatecount := -1, prepExecResp := prest,
                  trace := s.trace ++
                    [Req.prepareAndExecuteR s.connId s.id op s.itersize] }
                  result.statementId
              else (Except.ok (), { s with
                  updatecount := -1, prepExecResp := prest,
                  trace := s.trace ++
                    [Req.prepareAndExecuteR s.connId s.id op s.itersize] }))
              with ⟨r1, s2⟩
            rw [hstep1] at hfst
            have hs2u : s2.updatecount = -1 := by
              rcases hown : result.ownStatement with _ | _
              · rw [hown] at hstep1
                simp only [Bool.false_eq_true, if_false] at hstep1
                cases hstep1
                rfl
              · rw [hown] at hstep1
                simp only [if_true] at hstep1
                have hq := set_id_ucount { s with
                  updatecount := -1, prepExecResp := prest,
                  trace := s.trace ++
                    [Req.prepareAndExecuteR s.connId s.id op s.itersize] }
                  result.statementId
                rw [hstep1] at hq
                exact hq
            cases r1 with
            | error e1 => exact hs2u
            | ok u =>
              dsimp only at hfst ⊢
              rcases hsf : set_frame (set_signature s2 result.signature)
                  result.firstFrame with ⟨r2, s4⟩
              rw [hsf] at hfst
              have hs4u : s4.updatecount = -1 := by
                have h1 := set_frame_ucount (set_signature s2 result.signature)
                  result.firstFrame
                rw [hsf] at h1
                rw [h1, set_signature_ucount, hs2u]
              cases r2 with
              | error e2 => exact hs4u
              | ok u2 => simp at hfst
    | some psx =>
      rcases hpr : s.prepResp with _ | ⟨r0, prest⟩
      · simp [execute, hclosed, clientPrepare, hpr]
      · cases r0 with
        | error e0 => simp [execute, hclosed, clientPrepare, hpr]
        | ok st =>
          simp only [execute]
          rw [if_neg (by simp [hclosed] : ¬ s.closed = true)]
          simp only [clientPrepare, hpr]
          rcases hsi : set_id { s with
              updatecount := -1, prepResp := prest,
              trace := s.trace ++ [Req.prepareR s.connId s.id op s.itersize] }
              st.id with ⟨r1, s2⟩
          have hs2u : s2.updatecount = -1 := by
            have hq := set_id_ucount { s with
              updatecount := -1, prepResp := prest,
              trace := s.trace ++ [Req.prepareR s.connId s.id op s.itersize] }
              st.id
            rw [hsi] at hq
            exact hq
          cases r1 with
          | error e1 => exact hs2u
          | ok u =>
            dsimp only
            rcases hcf : clientFetch (set_signature s2 st.signature)
                (set_signature s2 st.signature).connId
                (set_signature s2 st.signature).id (some psx) none
                (set_signature s2 st.signature).itersize with ⟨r2, s3⟩
            have hs3u : s3.updatecount = -1 := by
              have hq := clientFetch_ucount (set_signature s2 st.signature)
                (set_signature s2 st.signature).connId
                (set_signature s2 st.signature).id (some psx) none
                (set_signature s2 st.signature).itersize
              rw [hcf] at hq
              rw [hq, set_signature_ucount, hs2u]
            cases r2 with
            | error e2 => exact hs3u
            | ok f =>
              have hq := set_frame_ucount s3 (some f)
              rw [hq, hs3u]
  refine ⟨herr, ?_, ?_, ?_⟩
  · intro result rest prest t hpe hrun
    simp only [execute] at hrun
    rw [if_neg (by simp [hclosed] : ¬ s.closed = true)] at hrun
    simp only [clientPrepareAndExecute, hpe] at hrun
    rcases hstep1 : (if result.ownStatement then
        set_id { s with
          updatecount := -1, prepExecResp := prest,
          trace := s.trace ++
            [Req.prepareAndExecuteR s.connId s.id op s.itersize] }
          result.statementId
      else (Except.ok (), { s with
          updatecount := -1, prepExecResp := prest,
          trace := s.trace ++
            [Req.prepareAndExecuteR s.connId s.id op s.itersize] }))
      with ⟨r1, s2⟩
    rw [hstep1] at hrun
    cases r1 with
    | error e1 => simp at hrun
    | ok u =>
      dsimp only at hrun
      rcases hsf : set_frame (set_signature s2 result.signature)
          result.firstFrame with ⟨r2, s4⟩
      rw [hsf] at hrun
      cases r2 with
      | error e2 => simp at hrun
      | ok u2 =>
        injection hrun with hha hht
        rw [← hht]
  · intro prest hpe
    simp [execute, hclosed, clientPrepareAndExecute, hpe]
  · intro ps t hrun
    have hres : t = (execute s op (some ps)).2 := by rw [hrun]
    have hfst : (execute s op (some ps)).1 = Except.ok () := by rw [hrun]
    rw [hres]
    clear hres hrun
    rcases hpr : s.prepResp with _ | ⟨r0, prest⟩
    · simp only [execute] at hfst
      rw [if_neg (by simp [hclosed] : ¬ s.closed = true)] at hfst
      simp only [clientPrepare, hpr] at hfst
      simp at hfst
    · cases r0 with
      | error e0 =>
        simp only [execute] at hfst
        rw [if_neg (by simp [hclosed] : ¬ s.closed = true)] at hfst
        simp only [clientPrepare, hpr] at hfst
        simp at hfst
      | ok st =>
        simp only [execute]
        rw [if_neg (by simp [hclosed] : ¬ s.closed = true)]
        simp only [clientPrepare, hpr]
        rcases hsi : set_id { s with
            updatecount := -1, prepResp := prest,
            trace := s.trace ++ [Req.prepareR s.connId s.id op s.itersize] }
            st.id with ⟨r1, s2⟩
        have hs2u : s2.updatecount = -1 := by
          have hq := set_id_ucount { s with
            updatecount := -1, prepResp := prest,
            trace := s.trace ++ [Req.prepareR s.connId s.id op s.itersize] }
            st.id
          rw [hsi] at hq
          exact hq
        cases r1 with
        | error e1 => exact hs2u
        | ok u =>
          dsimp only
          rcases hcf : clientFetch (set_signature s2 st.signature)
              (set_signature s2 st.signature).connId
              (set_signature s2 st.signature).id (some ps) none
              (set_signature s2 st.signature).itersize with ⟨r2, s3⟩
          have hs3u : s3.updatecount = -1 := by
            have hq := clientFetch_ucount (set_signature s2 st.signature)
              (set_signature s2 st.signature).connId
              (set_signature s2 st.signature).id (some ps) none
              (set_signature s2 st.signature).itersize
            rw [hcf] at hq
            rw [hq, set_signature_ucount, hs2u]
          cases r2 with
          | error e2 => exact hs3u
          | ok f =>
            have hq := set_frame_ucount s3 (some f)
            rw [hq, hs3u]

/-- A `prepareAndExecute` result reporting 42 affected rows. -/
def resultA : ExecResult :=
  { ownStatement := true, statementId := 5, signature := some sigMix,
    firstFrame := some page2, updateCount := 42 }

/-- A fresh cursor whose `prepareAndExecute` reports `resultA`. -/
def sAdopt : Sys := { baseSys with prepExecResp := [Except.ok [resultA]] }

/-- A fresh cursor whose `prepareAndExecute` reports an empty result
list. -/
def sEmptyRes : Sys := { baseSys with prepExecResp := [Except.ok []] }

/-- Witness for the amended C5: a failing execute leaves -1; a
no-parameter execute adopts the reported count 42; an empty response
leaves -1; a successful parameterized execute leaves -1. -/
theorem C5_amended_witness :
    (execute baseSys "SELECT 1" none).2.updatecount = -1 ∧
    (execute sAdopt "SELECT 1" none).2.updatecount = resultA.updateCount ∧
    (execute sEmptyRes "SELECT 1" none).2.updatecount = -1 ∧
    (execute sDml "UPSERT INTO t VALUES (?)"
      (some [PyVal.prim "1"])).2.updatecount = -1 :=
  ⟨(C5_amended baseSys "SELECT 1" rfl).1 none Err.noResponse
      (execute baseSys "SELECT 1" none).2 (by decide),
   (C5_amended sAdopt "SELECT 1" rfl).2.1 resultA [] []
      (execute sAdopt "SELECT 1" none).2 (by decide) (by decide),
   (C5_amended sEmptyRes "SELECT 1" rfl).2.2.1 [] (by decide),
   (C5_amended sDml "UPSERT INTO t VALUES (?)" rfl).2.2.2 [PyVal.prim "1"]
      (execute sDml "UPSERT INTO t VALUES (?)" (some [PyVal.prim "1"])).2
      (by decide)⟩

/-! ### Case analysis of `close` -/

/-- `close` on an already-closed cursor raises the StateError-kind
`ProgrammingError` and changes nothing. -/
theorem close_already (s : Sys) (h : s.closed = true) :
    close s = (Except.error (Err.programmingError "the cursor is already closed"), s) := by
  simp [close, h]

/-- `close` with no held statement handle: no collaborator call, fields
cleared, cursor marked closed. -/
theorem close_noid (s : Sys) (hclosed : s.closed = false) (hid : s.id = none) :
    close s = (Except.ok (), { s with
      signature := none, data_types := [], frame := none, pos := none,
      closed := true }) := by
  simp only [close, hclosed, Bool.false_eq_true, if_false, hid]

/-- `close` with a held handle and a successful release: exactly one
`closeStatement` request, fields cleared, cursor marked closed. -/
theorem close_ok (s : Sys) (sid : Nat) (crest : List (Except Err Unit))
    (hclosed : s.closed = false) (hid : s.id = some sid)
    (hresp : s.closeResp = Except.ok () :: crest) :
    close s = (Except.ok (), { s with
      id := none, signature := none, data_types := [], frame := none,
      pos := none, closed := true, closeResp := crest,
      trace := s.trace ++ [Req.closeStatementR s.connId sid] }) := by
  simp only [close, hclosed, Bool.false_eq_true, if_false, hid,
    clientCloseStatement, hresp]

/-- `close` when the release raises: the error propagates and the cursor
is left open (only the request was issued). -/
theorem close_err (s : Sys) (sid : Nat) (e : Err)
    (crest : List (Except Err Unit))
    (hclosed : s.closed = false) (hid : s.id = some sid)
    (hresp : s.closeResp = Except.error e :: crest) :
    close s = (Except.error e, { s with
      closeResp := crest,
      trace := s.trace ++ [Req.closeStatementR s.connId sid] }) := by
  simp only [close, hclosed, Bool.false_eq_true, if_false, hid,
    clientCloseStatement, hresp]

/-! ### Claim C6 -/

/-- C6: `__del__` on a cursor whose connection is open and that was
never explicitly closed performs the best-effort close — with no handle
or a successful release the cursor ends closed (with exactly one release
request in the handle case); when the collaborator's `closeStatement`
raises, the finalizer still returns normally (Python ignores exceptions
raised in `__del__`, which is why `delFinalizer` has no error outcome at
all), the release having been attempted and the error discarded. -/
theorem C6_del_cleanup (s : Sys)
    (hconn : s.connClosed = false) (hopen : s.closed = false) :
    (s.id = none → delFinalizer s = { s with
      signature := none, data_types := [], frame := none, pos := none,
      closed := true }) ∧
    (∀ (sid : Nat) (crest : List (Except Err Unit)),
      s.id = some sid → s.closeResp = Except.ok () :: crest →
      delFinalizer s = { s with
        id := none, signature := none, data_types := [], frame := none,
        pos := none, closed := true, closeResp := crest,
        trace := s.trace ++ [Req.closeStatementR s.connId sid] }) ∧
    (∀ (sid : Nat) (e : Err) (crest : List (Except Err Unit)),
      s.id = some sid → s.closeResp = Except.error e :: crest →
      delFinalizer s = { s with
        closeResp := crest,
        trace := s.trace ++ [Req.closeStatementR s.connId sid] } ∧
      (delFinalizer s).closed = false) := by
  have hcond : (¬ s.connClosed = true ∧ ¬ s.closed = true) := by
    simp [hconn, hopen]
  refine ⟨?_, ?_, ?_⟩
  · intro hid
    simp only [delFinalizer, if_pos hcond]
    rw [close_noid s hopen hid]
  · intro sid crest hid hresp
    simp only [delFinalizer, if_pos hcond]
    rw [close_ok s sid crest hopen hid hresp]
  · intro sid e crest hid hresp
    simp only [delFinalizer, if_pos hcond]
    rw [close_err s sid e crest hopen hid hresp]
    exact ⟨rfl, by simp [hopen]⟩

/-- Witness for C6: a handle-holding open cursor is closed by the
finalizer when the release succeeds, and left unclosed but error-free
when the release raises. -/
theorem C6_del_cleanup_witness :
    delFinalizer { baseSys with id := some 3, closeResp := [Except.ok ()] }
      = { baseSys with
          id := none, signature := none, data_types := [], frame := none,
          pos := none, closed := true, closeResp := [],
          trace := [Req.closeStatementR 7 3] } ∧
    (delFinalizer { baseSys with
        id := some 3,
        closeResp := [Except.error (Err.clientError "boom")] }).closed = false := by
  constructor
  · have h := (C6_del_cleanup
      { baseSys with id := some 3, closeResp := [Except.ok ()] }
      (by decide) (by decide)).2.1 3 [] (by decide) (by decide)
    rw [h]
    decide
  · exact ((C6_del_cleanup
      { baseSys with
        id := some 3,
        closeResp := [Except.error (Err.clientError "boom")] }
      (by decide) (by decide)).2.2 3 (Err.clientError "boom") []
      (by decide) (by decide)).2

/-! ### Claim C7 -/

/-- C7: a second `close` fails with the StateError-kind
`ProgrammingError` (not a no-op); `close` on an open cursor issues
exactly one release when a handle is held and none otherwise, clears the
signature, coercion table, frame and position, and marks the cursor
closed; afterwards (`closed = true`, `frame = None`) `execute`,
`executeMany`, a further `close`, `fetchone`, `fetchmany` and the
`fetchall` loop all fail with the StateError-kind `ProgrammingError`. -/
theorem C7_close_semantics :
    (∀ s : Sys, s.closed = true →
      close s = (Except.error
        (Err.programmingError "the cursor is already closed"), s)) ∧
    (∀ (s : Sys) (sid : Nat) (crest : List (Except Err Unit)),
      s.closed = false → s.id = some sid → s.closeResp = Except.ok () :: crest →
      close s = (Except.ok (), { s with
        id := none, signature := none, data_types := [], frame := none,
        pos := none, closed := true, closeResp := crest,
        trace := s.trace ++ [Req.closeStatementR s.connId sid] })) ∧
    (∀ s : Sys, s.closed = false → s.id = none →
      close s = (Except.ok (), { s with
        signature := none, data_types := [], frame := none, pos := none,
        closed := true })) ∧
    (∀ s2 : Sys, s2.closed = true → s2.frame = none →
      (∀ (op : String) (ps : Option Row), (execute s2 op ps).1
        = Except.error (Err.programmingError "the cursor is already closed")) ∧
      (∀ (op : String) (seq : List Row), (executemany s2 op seq).1
        = Except.error (Err.programmingError "the cursor is already closed")) ∧
      ((close s2).1
        = Except.error (Err.programmingError "the cursor is already closed")) ∧
      ((fetchone s2).1
        = Except.error (Err.programmingError "no select statement was executed")) ∧
      (∀ n : Int, 1 ≤ n → (fetchmany s2 (some n)).1
        = Except.error (Err.programmingError "no select statement was executed")) ∧
      (∀ fuel : Nat, 1 ≤ fuel → (fetchallFuel fuel s2).1
        = Except.error (Err.programmingError "no select statement was executed"))) := by
  refine ⟨?_, ?_, ?_, ?_⟩
  · intro s h
    exact close_already s h
  · intro s sid crest hclosed hid hresp
    exact close_ok s sid crest hclosed hid hresp
  · intro s hclosed hid
    exact close_noid s hclosed hid
  · intro s2 hclosed hframe
    have hf1 : fetchone s2 =
        (Except.error (Err.programmingError "no select statement was executed"),
          s2) := by
      simp [fetchone, hframe]
    refine ⟨?_, ?_, ?_, ?_, ?_, ?_⟩
    · intro op ps
      simp [execute, hclosed]
    · intro op seq
      simp [executemany, hclosed]
    · rw [close_already s2 hclosed]
    · rw [hf1]
    · intro n hn
      obtain ⟨m, hm⟩ : ∃ m, n.toNat = m + 1 := ⟨n.toNat - 1, by omega⟩
      show (drain n.toNat s2).1 = _
      rw [hm, drain_err m s2 s2 _ hf1]
    · intro fuel hfuel
      obtain ⟨m, hm⟩ : ∃ m, fuel = m + 1 := ⟨fuel - 1, by omega⟩
      show (drain fuel s2).1 = _
      rw [hm, drain_err m s2 s2 _ hf1]

/-- Witness for C7 on concrete cursors: double close errs; close with a
held handle issues one release and clears; close without a handle clears
silently; all operations fail on the closed cursor. -/
theorem C7_close_semantics_witness :
    close { baseSys with closed := true }
      = (Except.error (Err.programmingError "the cursor is already closed"),
         { baseSys with closed := true }) ∧
    close { baseSys with id := some 3, closeResp := [Except.ok ()] }
      = (Except.ok (), { baseSys with
          id := none, signature := none, data_types := [], frame := none,
          pos := none, closed := true, closeResp := [],
          trace := [Req.closeStatementR 7 3] }) ∧
    close baseSys = (Except.ok (), { baseSys with
      signature := none, data_types := [], frame := none, pos := none,
      closed := true }) ∧
    (execute { baseSys with closed := true } "SELECT 1" none).1
      = Except.error (Err.programmingError "the cursor is already closed") ∧
    (fetchone { baseSys with closed := true }).1
      = Except.error (Err.programmingError "no select statement was executed") ∧
    (fetchmany { baseSys with closed := true } (some 2)).1
      = Except.error (Err.programmingError "no select statement was executed") := by
  refine ⟨?_, ?_, ?_, ?_, ?_, ?_⟩
  · have h := C7_close_semantics.1 { baseSys with closed := true } (by decide)
    rw [h]
  · have h := C7_close_semantics.2.1
      { baseSys with id := some 3, closeResp := [Except.ok ()] } 3 []
      (by decide) (by decide) (by decide)
    rw [h]
    decide
  · have h := C7_close_semantics.2.2.1 baseSys (by decide) (by decide)
    rw [h]
  · exact ((C7_close_semantics.2.2.2 { baseSys with closed := true }
      (by decide) (by decide)).1 "SELECT 1" none)
  · exact (C7_close_semantics.2.2.2 { baseSys with closed := true }
      (by decide) (by decide)).2.2.2.1
  · exact ((C7_close_semantics.2.2.2 { baseSys with closed := true }
      (by decide) (by decide)).2.2.2.2.1 2 (by decide))

/-! ### Claim C10 -/

/-- C10: an `execute` without parameters whose `prepareAndExecute`
response is an empty result list leaves the statement handle, signature,
coercion table, buffered frame and position exactly as they were (the
record equality below changes only `updatecount`, plus the consumed
script and the logged request), resetting the update count to -1; a
subsequent `fetchone` still reads the rows buffered by the previous
execution, coerced at that moment. -/
theorem C10_empty_results (s : Sys) (op : String)
    (prest : List (Except Err (List ExecResult)))
    (hclosed : s.closed = false)
    (hpe : s.prepExecResp = Except.ok [] :: prest) :
    execute s op none = (Except.ok (), { s with
      updatecount := -1, prepExecResp := prest,
      trace := s.trace ++
        [Req.prepareAndExecuteR s.connId s.id op s.itersize] }) ∧
    (∀ (fr : Frame) (p : Nat) (row : Row),
      s.frame = some fr → s.pos = some p → fr.rows[p]? = some row →
      p + 1 < fr.rows.length →
      (fetchone (execute s op none).2).1
        = Except.map some (applyCoercions s.data_types row)) := by
  have hmain : execute s op none = (Except.ok (), { s with
      updatecount := -1, prepExecResp := prest,
      trace := s.trace ++
        [Req.prepareAndExecuteR s.connId s.id op s.itersize] }) := by
    simp only [execute]
    rw [if_neg (by simp [hclosed] : ¬ s.closed = true)]
    simp only [clientPrepareAndExecute, hpe]
  refine ⟨hmain, ?_⟩
  intro fr p row hf hp hr hlt
  rw [hmain]
  have h2 := fetchone_mid { s with
      updatecount := -1, prepExecResp := prest,
      trace := s.trace ++
        [Req.prepareAndExecuteR s.connId s.id op s.itersize] }
    fr p row hf hp hr hlt
  rw [h2]

/-- A cursor with buffered rows from a previous query, scripted so that
`prepareAndExecute` returns an empty result list. -/
def sKeep : Sys :=
  { baseSys with
    id := some 3, signature := some sigMix,
    data_types := deriveDataTypes sigMix,
    frame := some page0, pos := some 0,
    prepExecResp := [Except.ok []] }

/-- Witness for C10: the empty-response execute leaves everything but
the update count (and the consumed script / logged request), and
`fetchone` still returns the first buffered row, coerced. -/
theorem C10_empty_results_witness :
    execute sKeep "SELECT 1" none = (Except.ok (), { sKeep with
      updatecount := -1, prepExecResp := [],
      trace := sKeep.trace ++
        [Req.prepareAndExecuteR sKeep.connId sKeep.id "SELECT 1"
          sKeep.itersize] }) ∧
    (fetchone (execute sKeep "SELECT 1" none).2).1
      = Except.map some (applyCoercions sKeep.data_types
          [PyVal.prim "1", PyVal.prim "2.5", PyVal.prim "3.5"]) :=
  ⟨(C10_empty_results sKeep "SELECT 1" [] (by decide) (by decide)).1,
   (C10_empty_results sKeep "SELECT 1" [] (by decide) (by decide)).2
     page0 0 [PyVal.prim "1", PyVal.prim "2.5", PyVal.prim "3.5"]
     (by decide) (by decide) (by decide) (by decide)⟩
